import Mathlib

/-!
# MPU9250 driver: bus transaction layer and self-test procedure

Shallow embedding of `MPU9250_I2C.c` and `MPU9250.c`.

* The bus-master peripheral (`I2C_MPU9250_Master_*`) is external to the
  driver; it is a record of operations over an arbitrary state type.
* The constants of the headers the driver includes (`MPU9250_RegMap.h`,
  `MPU9250.h`, the generated master header) are fields of `Defs`.
* `uint8_t` / `uint16_t` values are `Nat`, `int16_t` / `int` values are `Int`;
  a store into a narrower type is written out (`% 256`, `int16_t_of_int`).
* `float` / `double` arithmetic is read over `ℚ`.
* `CyDelay`, `sprintf` and `UART_1_PutString` have no effect on the bus or on
  the values computed and are left out.
-/

namespace MPU9250

/-! ## Constants taken from headers -/

/-- Constants the driver takes from its headers: the transfer-mode and
acknowledge codes of the bus master, the register map and the range codes. -/
structure Defs where
  I2C_MPU9250_Master_WRITE_XFER_MODE : Nat
  I2C_MPU9250_Master_READ_XFER_MODE : Nat
  I2C_MPU9250_Master_ACK_DATA : Nat
  I2C_MPU9250_Master_NAK_DATA : Nat
  MPU9250_I2C_ADDRESS : Nat
  MPU9250_WHO_AM_I_REG : Nat
  MPU9250_WHO_AM_I : Nat
  MPU9250_ACCEL_XOUT_H_REG : Nat
  MPU9250_GYRO_XOUT_H_REG : Nat
  MPU9250_SELF_TEST_X_GYRO_REG : Nat
  MPU9250_SELF_TEST_X_ACCEL_REG : Nat
  MPU9250_CONFIG_REG : Nat
  MPU9250_GYRO_CONFIG_REG : Nat
  MPU9250_ACCEL_CONFIG_REG : Nat
  MPU9250_SMPLRT_DIV_REG : Nat
  MPU9250_INT_ENABLE_REG : Nat
  MPU9250_INT_PIN_CFG_REG : Nat
  MPU9250_Acc_FS_2g : Nat
  MPU9250_Acc_FS_4g : Nat
  MPU9250_Acc_FS_8g : Nat
  MPU9250_Acc_FS_16g : Nat
  MPU9250_Gyro_FS_250 : Nat

/-- The values of the MPU-9250 register map and of the PSoC master component,
used where a concrete instance of `Defs` is needed. -/
def datasheetDefs : Defs where
  I2C_MPU9250_Master_WRITE_XFER_MODE := 0
  I2C_MPU9250_Master_READ_XFER_MODE := 1
  I2C_MPU9250_Master_ACK_DATA := 1
  I2C_MPU9250_Master_NAK_DATA := 0
  MPU9250_I2C_ADDRESS := 0x68
  MPU9250_WHO_AM_I_REG := 0x75
  MPU9250_WHO_AM_I := 0x71
  MPU9250_ACCEL_XOUT_H_REG := 0x3B
  MPU9250_GYRO_XOUT_H_REG := 0x43
  MPU9250_SELF_TEST_X_GYRO_REG := 0x00
  MPU9250_SELF_TEST_X_ACCEL_REG := 0x0D
  MPU9250_CONFIG_REG := 0x1A
  MPU9250_GYRO_CONFIG_REG := 0x1B
  MPU9250_ACCEL_CONFIG_REG := 0x1C
  MPU9250_SMPLRT_DIV_REG := 0x19
  MPU9250_INT_ENABLE_REG := 0x38
  MPU9250_INT_PIN_CFG_REG := 0x37
  MPU9250_Acc_FS_2g := 0
  MPU9250_Acc_FS_4g := 1
  MPU9250_Acc_FS_8g := 2
  MPU9250_Acc_FS_16g := 3
  MPU9250_Gyro_FS_250 := 0

/-! ## The bus master interface -/

/-- The byte-oriented bus master the driver is written against.
`MasterSendStart` returns a status, `MasterReadByte` returns the byte read;
the driver never looks at what the other three return. -/
structure Master (σ : Type) where
  MasterSendStart : Nat → Nat → σ → Nat × σ
  MasterSendRestart : Nat → Nat → σ → σ
  MasterSendStop : σ → σ
  MasterWriteByte : Nat → σ → σ
  MasterReadByte : Nat → σ → Nat × σ

/-! ## `MPU9250_I2C.c` -/

/-- `MPU9250_I2C_Read`: single byte read. -/
def MPU9250_I2C_Read {σ : Type} (m : Master σ) (d : Defs) (address reg : Nat) (s : σ) :
    Nat × σ :=
  let s1 := (m.MasterSendStart address d.I2C_MPU9250_Master_WRITE_XFER_MODE s).2
  let s2 := m.MasterWriteByte reg s1
  let s3 := m.MasterSendStop s2
  let s4 := (m.MasterSendStart address d.I2C_MPU9250_Master_READ_XFER_MODE s3).2
  let r := m.MasterReadByte d.I2C_MPU9250_Master_NAK_DATA s4
  (r.1, m.MasterSendStop r.2)

/-- The loop `while (count--) { ... *data++ = MasterReadByte(..); }` of
`MPU9250_I2C_ReadMulti`.  `data` is the memory the pointer ranges over and
`p` the offset the pointer has reached; inside the body `count` is already
decremented, so the last byte is the one read with `count = 0`. -/
def ReadMulti_loop {σ : Type} (m : Master σ) (d : Defs) :
    Nat → (Nat → Nat) → Nat → σ → (Nat → Nat) × σ
  | 0, data, _, s => (data, s)
  | count + 1, data, p, s =>
    let r := m.MasterReadByte
      (if count = 0 then d.I2C_MPU9250_Master_NAK_DATA else d.I2C_MPU9250_Master_ACK_DATA) s
    ReadMulti_loop m d count (Function.update data p r.1) (p + 1) r.2

/-- `MPU9250_I2C_ReadMulti`: burst read of `count` bytes into `data`. -/
def MPU9250_I2C_ReadMulti {σ : Type} (m : Master σ) (d : Defs) (address reg : Nat)
    (data : Nat → Nat) (count : Nat) (s : σ) : (Nat → Nat) × σ :=
  let s1 := (m.MasterSendStart address d.I2C_MPU9250_Master_WRITE_XFER_MODE s).2
  let s2 := m.MasterWriteByte reg s1
  let s3 := m.MasterSendRestart address d.I2C_MPU9250_Master_READ_XFER_MODE s2
  let r := ReadMulti_loop m d count data 0 s3
  (r.1, m.MasterSendStop r.2)

/-- `MPU9250_I2C_Write`: single byte write. -/
def MPU9250_I2C_Write {σ : Type} (m : Master σ) (d : Defs) (address reg data : Nat) (s : σ) :
    σ :=
  let s1 := (m.MasterSendStart address d.I2C_MPU9250_Master_WRITE_XFER_MODE s).2
  let s2 := m.MasterWriteByte reg s1
  let s3 := m.MasterWriteByte data s2
  m.MasterSendStop s3

/-! ## A master that records the operations issued -/

/-- One call into the bus master. -/
inductive Op where
  | SendStart (address mode : Nat)
  | SendRestart (address mode : Nat)
  | SendStop
  | WriteByte (byte : Nat)
  | ReadByte (acknNak : Nat)
  deriving DecidableEq, Repr

/-- Whether an operation is a restart. -/
def Op.isRestart : Op → Bool
  | .SendRestart _ _ => true
  | _ => false

/-- State of the recording master: the operations issued so far and how many
starts and byte reads there have been. -/
structure Bus where
  log : List Op
  starts : Nat
  reads : Nat
  deriving DecidableEq, Repr

/-- The recording master: the `k`-th `MasterSendStart` returns `status k` and
the `k`-th `MasterReadByte` yields `byte k`. -/
def recorder (status byte : Nat → Nat) : Master Bus where
  MasterSendStart := fun address mode s =>
    (status s.starts, { s with log := s.log ++ [Op.SendStart address mode], starts := s.starts + 1 })
  MasterSendRestart := fun address mode s =>
    { s with log := s.log ++ [Op.SendRestart address mode] }
  MasterSendStop := fun s => { s with log := s.log ++ [Op.SendStop] }
  MasterWriteByte := fun b s => { s with log := s.log ++ [Op.WriteByte b] }
  MasterReadByte := fun a s =>
    (byte s.reads, { s with log := s.log ++ [Op.ReadByte a], reads := s.reads + 1 })

/-! ## A simulated device behind the master -/

/-- Where the simulated device stands within a transaction. -/
inductive Phase where
  | idle
  | awaitRegister
  | awaitData
  | reading
  deriving DecidableEq, Repr

/-- The simulated bus: one register file and one register pointer per device
address, the address selected by the last start, and the phase. -/
structure Device where
  regs : Nat → Nat → Nat
  pointer : Nat → Nat
  selected : Nat
  phase : Phase

/-- The simulated device seen through the master interface.  A start in write
mode makes the next byte written the register pointer and every further byte
written a store at the pointer (which then advances); a start in any other
mode makes every byte read the content of the register at the pointer (which
then advances).  Every start is acknowledged (status 0). -/
def simulated (d : Defs) : Master Device where
  MasterSendStart := fun address mode s =>
    (0, { s with selected := address,
                 phase := if mode = d.I2C_MPU9250_Master_WRITE_XFER_MODE
                          then Phase.awaitRegister else Phase.reading })
  MasterSendRestart := fun address mode s =>
    { s with selected := address,
             phase := if mode = d.I2C_MPU9250_Master_WRITE_XFER_MODE
                      then Phase.awaitRegister else Phase.reading }
  MasterSendStop := fun s => { s with phase := Phase.idle }
  MasterWriteByte := fun b s =>
    match s.phase with
    | Phase.awaitRegister =>
      { s with pointer := Function.update s.pointer s.selected b, phase := Phase.awaitData }
    | Phase.awaitData =>
      { s with
        regs := Function.update s.regs s.selected
          (Function.update (s.regs s.selected) (s.pointer s.selected) b),
        pointer := Function.update s.pointer s.selected (s.pointer s.selected + 1) }
    | _ => s
  MasterReadByte := fun _ s =>
    match s.phase with
    | Phase.reading =>
      (s.regs s.selected (s.pointer s.selected),
       { s with pointer := Function.update s.pointer s.selected (s.pointer s.selected + 1) })
    | _ => (0xFF, s)

/-! ## `MPU9250.c`: presence check and sample reads -/

/-- `MPU9250_IsConnected`: probe start/stop, then identity register check. -/
def MPU9250_IsConnected {σ : Type} (m : Master σ) (d : Defs) (s : σ) : Nat × σ :=
  let r := m.MasterSendStart d.MPU9250_I2C_ADDRESS 0 s
  let err := r.1
  let s1 := m.MasterSendStop r.2
  if err > 0 then (0, s1)
  else
    let q := MPU9250_I2C_Read m d d.MPU9250_I2C_ADDRESS d.MPU9250_WHO_AM_I_REG s1
    (if q.1 = d.MPU9250_WHO_AM_I then 1 else 0, q.2)

/-- Conversion of an `int` to `int16_t` (two's complement, modulo 2^16). -/
def int16_t_of_int (x : Int) : Int :=
  if x % 65536 < 32768 then x % 65536 else x % 65536 - 65536

/-- The expression `(temp[hi] << 8) | (temp[lo] & 0xFF)` stored into an
`int16_t`. -/
def combine (temp : Nat → Nat) (hi lo : Nat) : Int :=
  int16_t_of_int (Int.ofNat ((temp hi <<< 8) ||| (temp lo &&& 0xFF)))

/-- `MPU9250_ReadAcc`: the three values stored in `acc[0..2]`.  The local
buffer `temp[6]` starts out as zeros here; the burst read overwrites all of
it. -/
def MPU9250_ReadAcc {σ : Type} (m : Master σ) (d : Defs) (s : σ) : List Int × σ :=
  let r := MPU9250_I2C_ReadMulti m d d.MPU9250_I2C_ADDRESS d.MPU9250_ACCEL_XOUT_H_REG
    (fun _ => 0) 6 s
  ([combine r.1 0 1, combine r.1 2 3, combine r.1 4 5], r.2)

/-- `MPU9250_ReadGyro`: the three values stored in `gyro[0..2]`. -/
def MPU9250_ReadGyro {σ : Type} (m : Master σ) (d : Defs) (s : σ) : List Int × σ :=
  let r := MPU9250_I2C_ReadMulti m d d.MPU9250_I2C_ADDRESS d.MPU9250_GYRO_XOUT_H_REG
    (fun _ => 0) 6 s
  ([combine r.1 0 1, combine r.1 2 3, combine r.1 4 5], r.2)

/-- `MPU9250_ReadSelfTestGyro`: the three values stored in
`self_test_gyro[0..2]`. -/
def MPU9250_ReadSelfTestGyro {σ : Type} (m : Master σ) (d : Defs) (s : σ) : List Int × σ :=
  let r := MPU9250_I2C_ReadMulti m d d.MPU9250_I2C_ADDRESS d.MPU9250_SELF_TEST_X_GYRO_REG
    (fun _ => 0) 6 s
  ([combine r.1 0 1, combine r.1 1 3, combine r.1 2 5], r.2)

/-- `MPU9250_ReadSelfTestAcc`: the three values stored in
`self_test_acc[0..2]`. -/
def MPU9250_ReadSelfTestAcc {σ : Type} (m : Master σ) (d : Defs) (s : σ) : List Int × σ :=
  let r := MPU9250_I2C_ReadMulti m d d.MPU9250_I2C_ADDRESS d.MPU9250_SELF_TEST_X_ACCEL_REG
    (fun _ => 0) 6 s
  ([combine r.1 0 1, combine r.1 1 3, combine r.1 2 5], r.2)

/-! ## `MPU9250.c`: full-scale range and scale factors -/

/-- The macro `MPU9250_ACC_FS_MASK`. -/
def MPU9250_ACC_FS_MASK : Nat := 0x18

/-- The macro `MPU9250_GYRO_FS_MASK`. -/
def MPU9250_GYRO_FS_MASK : Nat := 0x18

/-- The macro `MPU9250_G`, `9.807f`, read as the rational 9.807. -/
def MPU9250_G : ℚ := 9807 / 1000

/-- The statement `temp &= ~mask` on a `uint8_t temp`. -/
def clear_bits (temp mask : Nat) : Nat := temp &&& (0xFF ^^^ mask)

/-- The driver's view of the world: the bus and the two file-scope
variables `acc_scale` and `gyro_scale`. -/
structure Driver (σ : Type) where
  bus : σ
  acc_scale : ℚ
  gyro_scale : ℚ

/-- `MPU9250_SetAccFS`: read-modify-write of bits [4:3] of the accelerometer
configuration register, then the `switch` that updates `acc_scale` (no case
matching leaves it as it was). -/
def MPU9250_SetAccFS {σ : Type} (m : Master σ) (d : Defs) (fs : Nat) (w : Driver σ) :
    Driver σ :=
  let r := MPU9250_I2C_Read m d d.MPU9250_I2C_ADDRESS d.MPU9250_ACCEL_CONFIG_REG w.bus
  let temp := clear_bits r.1 MPU9250_ACC_FS_MASK
  let bus := MPU9250_I2C_Write m d d.MPU9250_I2C_ADDRESS d.MPU9250_ACCEL_CONFIG_REG
    ((temp ||| (fs <<< 3)) % 256) r.2
  { w with
    bus := bus,
    acc_scale :=
      if fs = d.MPU9250_Acc_FS_2g then MPU9250_G * 2 / 2 ^ 16 / 2
      else if fs = d.MPU9250_Acc_FS_4g then MPU9250_G * 4 / 2 ^ 16 / 2
      else if fs = d.MPU9250_Acc_FS_8g then MPU9250_G * 8 / 2 ^ 16 / 2
      else if fs = d.MPU9250_Acc_FS_16g then MPU9250_G * 16 / 2 ^ 16 / 2
      else w.acc_scale }

/-- `MPU9250_GetAccFS`: bits [4:3] of the accelerometer configuration
register, shifted down. -/
def MPU9250_GetAccFS {σ : Type} (m : Master σ) (d : Defs) (s : σ) : Nat × σ :=
  let r := MPU9250_I2C_Read m d d.MPU9250_I2C_ADDRESS d.MPU9250_ACCEL_CONFIG_REG s
  ((r.1 &&& MPU9250_ACC_FS_MASK) >>> 3, r.2)

/-- `MPU9250_SetGyroFS`: read-modify-write of bits [4:3] of the gyroscope
configuration register. -/
def MPU9250_SetGyroFS {σ : Type} (m : Master σ) (d : Defs) (fs : Nat) (w : Driver σ) :
    Driver σ :=
  let r := MPU9250_I2C_Read m d d.MPU9250_I2C_ADDRESS d.MPU9250_GYRO_CONFIG_REG w.bus
  let temp := clear_bits r.1 MPU9250_GYRO_FS_MASK
  { w with
    bus := MPU9250_I2C_Write m d d.MPU9250_I2C_ADDRESS d.MPU9250_GYRO_CONFIG_REG
      ((temp ||| (fs <<< 3)) % 256) r.2 }

/-- `MPU9250_GetGyroFS`: bits [4:3] of the gyroscope configuration register,
shifted down. -/
def MPU9250_GetGyroFS {σ : Type} (m : Master σ) (d : Defs) (s : σ) : Nat × σ :=
  let r := MPU9250_I2C_Read m d d.MPU9250_I2C_ADDRESS d.MPU9250_GYRO_CONFIG_REG s
  ((r.1 &&& MPU9250_GYRO_FS_MASK) >>> 3, r.2)

/-- `MPU9250_SetSampleRateDivider`. -/
def MPU9250_SetSampleRateDivider {σ : Type} (m : Master σ) (d : Defs) (smplrt : Nat) (s : σ) :
    σ :=
  MPU9250_I2C_Write m d d.MPU9250_I2C_ADDRESS d.MPU9250_SMPLRT_DIV_REG smplrt s

/-! ## `MPU9250.c`: self test -/

/-- The three statements `X[k] += X_Temp[k]`, `k = 0, 1, 2`, on `int16_t`
arrays: the sum is formed in `int` and stored back into an `int16_t`. -/
def SelfTest_accumulate (X X_Temp : List Int) : List Int :=
  [int16_t_of_int (X.getD 0 0 + X_Temp.getD 0 0),
   int16_t_of_int (X.getD 1 0 + X_Temp.getD 1 0),
   int16_t_of_int (X.getD 2 0 + X_Temp.getD 2 0)]

/-- The loop `for (reading = 0; reading < 200; reading++)` of
`MPU9250_SelfTest`, with the number of readings still to take as first
argument: read the accelerometer, add it to the first accumulator, read the
gyroscope, add it to the second. -/
def SelfTest_readings {σ : Type} (m : Master σ) (d : Defs) :
    Nat → List Int → List Int → σ → (List Int × List Int) × σ
  | 0, Acc, Gyro, s => ((Acc, Gyro), s)
  | n + 1, Acc, Gyro, s =>
    let a := MPU9250_ReadAcc m d s
    let g := MPU9250_ReadGyro m d a.2
    SelfTest_readings m d n (SelfTest_accumulate Acc a.1) (SelfTest_accumulate Gyro g.1) g.2

/-- The loop `for (i = 0; i < 3; i++) X[i] /= 200;` on an `int16_t` array:
division in `int` truncates toward zero. -/
def SelfTest_average (X : List Int) : List Int :=
  [int16_t_of_int (Int.tdiv (X.getD 0 0) 200),
   int16_t_of_int (Int.tdiv (X.getD 1 0) 200),
   int16_t_of_int (Int.tdiv (X.getD 2 0) 200)]

/-- One line `Factory_Trim[k] = (float)((2620 / 1 << MPU9250_Acc_FS_2g) *
pow(1.01, stored - 1.0))`: `/` binds tighter than `<<`. -/
def SelfTest_trim (d : Defs) (stored : Int) : ℚ :=
  (((2620 / 1) <<< d.MPU9250_Acc_FS_2g : Nat) : ℚ) * (101 / 100 : ℚ) ^ (stored - 1)

/-- One pass of the loop `for (i = 0; i < 3; i++)` that fills `deviation`.
Array reads are checked against the declared length of the array; a read
outside it has no value. -/
def SelfTest_deviation_step (ST_Response Acc Gyro : List Int) (Factory_Trim : List ℚ)
    (deviation : List (Option ℚ)) (i : Nat) : List (Option ℚ) :=
  let dev_acc : Option ℚ := do
    let r ← ST_Response[i]?
    let a ← Acc[i]?
    let f ← Factory_Trim[i]?
    pure (100 * (((r - a : Int) : ℚ)) / f - 100)
  let dev_gyro : Option ℚ := do
    let r ← ST_Response[i]?
    let g ← Gyro[i + 3]?
    let f ← Factory_Trim[i]?
    pure (100 * (((r - g : Int) : ℚ)) / f - 100)
  (deviation.set i dev_acc).set (i + 3) dev_gyro

/-- The local variables of `MPU9250_SelfTest` at its end, and the six entries
of the output array `deviation`. -/
structure SelfTestLocals where
  Old_Acc_FS : Nat
  Old_Gyro_FS : Nat
  Acc : List Int
  Gyro : List Int
  ST_Acc : List Int
  ST_Gyro : List Int
  ST_Response : List Int
  ST_AccStored : List Int
  ST_GyroStored : List Int
  Factory_Trim : List ℚ
  deviation : List (Option ℚ)

/-- First part of `MPU9250_SelfTest`: save the ranges, set 250 dps and 2 g,
clear the sample rate divider and write the filter configuration. -/
def SelfTest_configure {σ : Type} (m : Master σ) (d : Defs) (w : Driver σ) :
    (Nat × Nat) × Driver σ :=
  let a := MPU9250_GetAccFS m d w.bus
  let g := MPU9250_GetGyroFS m d a.2
  let w1 := MPU9250_SetGyroFS m d d.MPU9250_Gyro_FS_250 { w with bus := g.2 }
  let w2 := MPU9250_SetAccFS m d d.MPU9250_Acc_FS_2g w1
  let b3 := MPU9250_SetSampleRateDivider m d 0x00 w2.bus
  let b4 := MPU9250_I2C_Write m d d.MPU9250_I2C_ADDRESS d.MPU9250_CONFIG_REG 0x02 b3
  let t := MPU9250_I2C_Read m d d.MPU9250_I2C_ADDRESS d.MPU9250_GYRO_CONFIG_REG b4
  let temp := clear_bits t.1 0x02
  let b5 := MPU9250_I2C_Write m d d.MPU9250_I2C_ADDRESS d.MPU9250_GYRO_CONFIG_REG temp t.2
  let b6 := MPU9250_I2C_Write m d d.MPU9250_I2C_ADDRESS d.MPU9250_ACCEL_CONFIG_REG 0x02 b5
  ((a.1, g.1), { w2 with bus := b6 })

/-- Set bits [7,6,5] of the gyroscope and then of the accelerometer
configuration register. -/
def SelfTest_enable {σ : Type} (m : Master σ) (d : Defs) (s : σ) : σ :=
  let t1 := MPU9250_I2C_Read m d d.MPU9250_I2C_ADDRESS d.MPU9250_GYRO_CONFIG_REG s
  let b1 := MPU9250_I2C_Write m d d.MPU9250_I2C_ADDRESS d.MPU9250_GYRO_CONFIG_REG
    ((t1.1 ||| 0xE0) % 256) t1.2
  let t2 := MPU9250_I2C_Read m d d.MPU9250_I2C_ADDRESS d.MPU9250_ACCEL_CONFIG_REG b1
  MPU9250_I2C_Write m d d.MPU9250_I2C_ADDRESS d.MPU9250_ACCEL_CONFIG_REG
    ((t2.1 ||| 0xE0) % 256) t2.2

/-- Clear bits [7,6,5] of the gyroscope and then of the accelerometer
configuration register. -/
def SelfTest_disable {σ : Type} (m : Master σ) (d : Defs) (s : σ) : σ :=
  let t1 := MPU9250_I2C_Read m d d.MPU9250_I2C_ADDRESS d.MPU9250_GYRO_CONFIG_REG s
  let b1 := MPU9250_I2C_Write m d d.MPU9250_I2C_ADDRESS d.MPU9250_GYRO_CONFIG_REG
    (clear_bits t1.1 0xE0) t1.2
  let t2 := MPU9250_I2C_Read m d d.MPU9250_I2C_ADDRESS d.MPU9250_ACCEL_CONFIG_REG b1
  MPU9250_I2C_Write m d d.MPU9250_I2C_ADDRESS d.MPU9250_ACCEL_CONFIG_REG
    (clear_bits t2.1 0xE0) t2.2

/-- `MPU9250_SelfTest`. -/
def MPU9250_SelfTest {σ : Type} (m : Master σ) (d : Defs) (w : Driver σ) :
    SelfTestLocals × Driver σ :=
  let c := SelfTest_configure m d w
  let Old_Acc_FS := c.1.1
  let Old_Gyro_FS := c.1.2
  let l1 := SelfTest_readings m d 200 [0, 0, 0] [0, 0, 0] c.2.bus
  let Acc := SelfTest_average l1.1.1
  let Gyro := SelfTest_average l1.1.2
  let b1 := SelfTest_enable m d l1.2
  let l2 := SelfTest_readings m d 200 [0, 0, 0] [0, 0, 0] b1
  let ST_Acc := SelfTest_average l2.1.1
  let ST_Gyro := SelfTest_average l2.1.2
  let b2 := SelfTest_disable m d l2.2
  let w3 := MPU9250_SetAccFS m d Old_Acc_FS { c.2 with bus := b2 }
  let w4 := MPU9250_SetGyroFS m d Old_Gyro_FS w3
  let ST_Response : List Int :=
    [int16_t_of_int (ST_Acc.getD 0 0 - Acc.getD 0 0),
     int16_t_of_int (ST_Acc.getD 1 0 - Acc.getD 1 0),
     int16_t_of_int (ST_Acc.getD 2 0 - Acc.getD 2 0),
     int16_t_of_int (ST_Gyro.getD 0 0 - Gyro.getD 0 0),
     int16_t_of_int (ST_Gyro.getD 1 0 - Gyro.getD 1 0),
     int16_t_of_int (ST_Gyro.getD 2 0 - Gyro.getD 2 0)]
  let sa := MPU9250_ReadSelfTestAcc m d w4.bus
  let sg := MPU9250_ReadSelfTestGyro m d sa.2
  let ST_AccStored := sa.1
  let ST_GyroStored := sg.1
  let Factory_Trim : List ℚ :=
    [SelfTest_trim d (ST_AccStored.getD 0 0),
     SelfTest_trim d (ST_AccStored.getD 1 0),
     SelfTest_trim d (ST_AccStored.getD 2 0),
     SelfTest_trim d (ST_GyroStored.getD 0 0),
     SelfTest_trim d (ST_GyroStored.getD 1 0),
     SelfTest_trim d (ST_GyroStored.getD 2 0)]
  let deviation := List.foldl
    (SelfTest_deviation_step ST_Response Acc Gyro Factory_Trim)
    (List.replicate 6 none) [0, 1, 2]
  ({ Old_Acc_FS := Old_Acc_FS, Old_Gyro_FS := Old_Gyro_FS, Acc := Acc, Gyro := Gyro,
     ST_Acc := ST_Acc, ST_Gyro := ST_Gyro, ST_Response := ST_Response,
     ST_AccStored := ST_AccStored, ST_GyroStored := ST_GyroStored,
     Factory_Trim := Factory_Trim, deviation := deviation },
   { w4 with bus := sg.2 })

/-- A concrete driver state on the simulated device: accelerometer
configuration 0x55 (range code 2), gyroscope configuration 0x18 (range code
3), every other register 0, both scale factors 0. -/
def exampleDriver : Driver Device :=
  { bus := { regs := fun _ r => if r = 0x1C then 0x55 else if r = 0x1B then 0x18 else 0,
             pointer := fun _ => 0, selected := 0, phase := Phase.idle },
    acc_scale := 0, gyro_scale := 0 }

/-- A register that is none of the four configuration registers the self test
writes. -/
def Defs.notConfig (d : Defs) (r : Nat) : Prop :=
  r ≠ d.MPU9250_ACCEL_CONFIG_REG ∧ r ≠ d.MPU9250_GYRO_CONFIG_REG
    ∧ r ≠ d.MPU9250_SMPLRT_DIV_REG ∧ r ≠ d.MPU9250_CONFIG_REG

instance (d : Defs) (r : Nat) : Decidable (d.notConfig r) := by
  unfold Defs.notConfig
  exact inferInstance

/-- A device at rest: the accelerometer Z output registers hold 0x40 0x00
(16384, one g at the 2 g range), the three accelerometer self-test registers
hold 0x01, every other register holds 0. -/
def restingDriver : Driver Device :=
  { bus := { regs := fun _ r =>
               if r = 0x3F then 0x40
               else if r = 0x0D ∨ r = 0x0E ∨ r = 0x0F then 0x01
               else 0,
             pointer := fun _ => 0, selected := 0, phase := Phase.idle },
    acc_scale := 0, gyro_scale := 0 }

/-! ## `MPU9250_I2C.c`: read without register address -/

/-- The loop `while (count--) { ... *data = MasterReadByte(..); }` of
`MPU9250_I2C_ReadMultiNoRegister`: every byte is stored through `data`, which
is never advanced, so every store goes to offset 0. -/
def ReadMultiNoRegister_loop {σ : Type} (m : Master σ) (d : Defs) :
    Nat → (Nat → Nat) → σ → (Nat → Nat) × σ
  | 0, data, s => (data, s)
  | count + 1, data, s =>
    let r := m.MasterReadByte
      (if count = 0 then d.I2C_MPU9250_Master_NAK_DATA else d.I2C_MPU9250_Master_ACK_DATA) s
    ReadMultiNoRegister_loop m d count (Function.update data 0 r.1) r.2

/-- `MPU9250_I2C_ReadMultiNoRegister`: read of `count` bytes with no register
address phase. -/
def MPU9250_I2C_ReadMultiNoRegister {σ : Type} (m : Master σ) (d : Defs) (address : Nat)
    (data : Nat → Nat) (count : Nat) (s : σ) : (Nat → Nat) × σ :=
  let s1 := (m.MasterSendStart address d.I2C_MPU9250_Master_READ_XFER_MODE s).2
  let r := ReadMultiNoRegister_loop m d count data s1
  (r.1, m.MasterSendStop r.2)

/-! ## `MPU9250.c`: interrupt polarity -/

/-- `MPU9250_SetInterruptActiveHigh`: reads `MPU9250_INT_ENABLE_REG`, clears
`0x80` and writes `MPU9250_INT_ENABLE_REG`. -/
def MPU9250_SetInterruptActiveHigh {σ : Type} (m : Master σ) (d : Defs) (s : σ) : σ :=
  let r := MPU9250_I2C_Read m d d.MPU9250_I2C_ADDRESS d.MPU9250_INT_ENABLE_REG s
  let temp := clear_bits r.1 0x80
  MPU9250_I2C_Write m d d.MPU9250_I2C_ADDRESS d.MPU9250_INT_ENABLE_REG temp r.2

/-- `MPU9250_SetInterruptActiveLow`: reads `MPU9250_INT_PIN_CFG_REG`, sets
`0x40` and writes `MPU9250_INT_PIN_CFG_REG`. -/
def MPU9250_SetInterruptActiveLow {σ : Type} (m : Master σ) (d : Defs) (s : σ) : σ :=
  let r := MPU9250_I2C_Read m d d.MPU9250_I2C_ADDRESS d.MPU9250_INT_PIN_CFG_REG s
  let temp := (r.1 ||| 0x40) % 256
  MPU9250_I2C_Write m d d.MPU9250_I2C_ADDRESS d.MPU9250_INT_PIN_CFG_REG temp r.2

/-- A concrete driver state on the simulated device as `MPU9250_Start` leaves
the two rate registers: sample rate divider 4, CONFIG 0x03; every other
register 0. -/
def startedDriver : Driver Device :=
  { bus := { regs := fun _ r => if r = 0x19 then 0x04 else if r = 0x1A then 0x03 else 0,
             pointer := fun _ => 0, selected := 0, phase := Phase.idle },
    acc_scale := 0, gyro_scale := 0 }

/-- A simulated device whose interrupt pin configuration register (0x37) and
interrupt enable register (0x38) hold the two given bytes; every other
register holds 0. -/
def interruptDevice (pin_cfg int_enable : Nat) : Device :=
  { regs := fun _ r => if r = 0x37 then pin_cfg else if r = 0x38 then int_enable else 0,
    pointer := fun _ => 0, selected := 0, phase := Phase.idle }

/-! ## Lemmas on the burst-read loop -/

theorem ReadMulti_loop_recorder (d : Defs) (status byte : Nat → Nat) (count : Nat) :
    ∀ (data : Nat → Nat) (p : Nat) (s : Bus),
      (ReadMulti_loop (recorder status byte) d (count + 1) data p s).2.log
          = s.log ++ (List.replicate count (Op.ReadByte d.I2C_MPU9250_Master_ACK_DATA)
              ++ [Op.ReadByte d.I2C_MPU9250_Master_NAK_DATA])
      ∧ (ReadMulti_loop (recorder status byte) d (count + 1) data p s).2.reads
          = s.reads + (count + 1)
      ∧ (ReadMulti_loop (recorder status byte) d (count + 1) data p s).2.starts = s.starts
      ∧ (∀ i, i < count + 1 →
          (ReadMulti_loop (recorder status byte) d (count + 1) data p s).1 (p + i)
            = byte (s.reads + i))
      ∧ (∀ j, j < p ∨ p + (count + 1) ≤ j →
          (ReadMulti_loop (recorder status byte) d (count + 1) data p s).1 j = data j) := by
  induction count with
  | zero =>
    intro data p s
    refine ⟨?_, ?_, ?_, ?_, ?_⟩
    · simp [ReadMulti_loop, recorder]
    · simp [ReadMulti_loop, recorder]
    · simp [ReadMulti_loop, recorder]
    · intro i hi
      have : i = 0 := by omega
      subst this
      simp [ReadMulti_loop, recorder]
    · intro j hj
      have : j ≠ p := by omega
      simp [ReadMulti_loop, recorder, Function.update_noteq this]
  | succ n ih =>
    intro data p s
    have step : ReadMulti_loop (recorder status byte) d (n + 1 + 1) data p s
        = ReadMulti_loop (recorder status byte) d (n + 1)
            (Function.update data p (byte s.reads)) (p + 1)
            { s with log := s.log ++ [Op.ReadByte d.I2C_MPU9250_Master_ACK_DATA],
                     reads := s.reads + 1 } := by
      simp [ReadMulti_loop, recorder]
    rw [step]
    obtain ⟨h1, h2, h3, h4, h5⟩ := ih (Function.update data p (byte s.reads)) (p + 1)
      { s with log := s.log ++ [Op.ReadByte d.I2C_MPU9250_Master_ACK_DATA],
               reads := s.reads + 1 }
    refine ⟨?_, ?_, ?_, ?_, ?_⟩
    · rw [h1]; simp [List.replicate_succ]
    · rw [h2]; simp; omega
    · rw [h3]
    · intro i hi
      cases i with
      | zero =>
        simp only [Nat.add_zero]
        rw [h5 p (Or.inl (by omega))]
        simp
      | succ k =>
        have := h4 k (by omega)
        simp only at this
        rw [show p + (k + 1) = p + 1 + k by omega, this]
        congr 1
        omega
    · intro j hj
      rw [h5 j (by omega)]
      have : j ≠ p := by omega
      simp [Function.update_noteq this]

theorem ReadMulti_recorder_data (d : Defs) (status byte : Nat → Nat)
    (address reg n : Nat) (data : Nat → Nat) (s : Bus) (i : Nat) (hi : i < n + 1) :
    (MPU9250_I2C_ReadMulti (recorder status byte) d address reg data (n + 1) s).1 i
      = byte (s.reads + i) := by
  have h := (ReadMulti_loop_recorder d status byte n data 0
    ((recorder status byte).MasterSendRestart address d.I2C_MPU9250_Master_READ_XFER_MODE
      ((recorder status byte).MasterWriteByte reg
        ((recorder status byte).MasterSendStart address
          d.I2C_MPU9250_Master_WRITE_XFER_MODE s).2))).2.2.2.1 i hi
  simp only [Nat.zero_add] at h
  show (ReadMulti_loop _ _ _ _ _ _).1 i = _
  rw [h]
  simp [recorder]

/-! ## Lemmas on byte pairs -/

theorem shift_or_eq (h l : Nat) (hl : l < 256) :
    (h <<< 8) ||| (l &&& 0xFF) = 256 * h + l := by
  have h1 : l &&& 0xFF = l := by
    have := Nat.and_pow_two_sub_one_eq_mod l 8
    simp only [Nat.reducePow, Nat.add_one_sub_one] at this
    rw [this]
    exact Nat.mod_eq_of_lt hl
  have h2 : h <<< 8 = 2 ^ 8 * h := by
    rw [Nat.shiftLeft_eq, Nat.mul_comm]
  rw [h1, h2, ← Nat.mul_add_lt_is_or (by simpa using hl) h]

theorem combine_eq (temp : Nat → Nat) (hi lo : Nat) (hhi : temp hi < 256)
    (hlo : temp lo < 256) :
    combine temp hi lo
      = if 256 * (temp hi : Int) + (temp lo : Int) < 32768
        then 256 * (temp hi : Int) + (temp lo : Int)
        else 256 * (temp hi : Int) + (temp lo : Int) - 65536 := by
  unfold combine int16_t_of_int
  rw [shift_or_eq _ _ hlo]
  have hmod : (Int.ofNat (256 * temp hi + temp lo)) % 65536
      = 256 * (temp hi : Int) + (temp lo : Int) := by
    have : (Int.ofNat (256 * temp hi + temp lo)) = 256 * (temp hi : Int) + (temp lo : Int) := by
      simp
    rw [this]
    apply Int.emod_eq_of_lt <;> omega
  rw [hmod]

/-! ## Lemmas on the simulated device -/

theorem simulated_Read_val (d : Defs) (address reg : Nat) (s : Device)
    (hmode : d.I2C_MPU9250_Master_READ_XFER_MODE ≠ d.I2C_MPU9250_Master_WRITE_XFER_MODE) :
    (MPU9250_I2C_Read (simulated d) d address reg s).1 = s.regs address reg := by
  simp [MPU9250_I2C_Read, simulated, hmode]

theorem simulated_Read_regs (d : Defs) (address reg : Nat) (s : Device) :
    (MPU9250_I2C_Read (simulated d) d address reg s).2.regs = s.regs := by
  by_cases h : d.I2C_MPU9250_Master_READ_XFER_MODE = d.I2C_MPU9250_Master_WRITE_XFER_MODE
  · simp [MPU9250_I2C_Read, simulated, h]
  · simp [MPU9250_I2C_Read, simulated, h]

theorem simulated_Write_regs (d : Defs) (address reg v : Nat) (s : Device) :
    (MPU9250_I2C_Write (simulated d) d address reg v s).regs
      = Function.update s.regs address (Function.update (s.regs address) reg v) := by
  simp [MPU9250_I2C_Write, simulated]

theorem simulated_ReadByte_regs (d : Defs) (a : Nat) (s : Device) :
    ((simulated d).MasterReadByte a s).2.regs = s.regs := by
  unfold simulated
  cases h : s.phase <;> simp [h]

theorem simulated_ReadMulti_loop_regs (d : Defs) (count : Nat) :
    ∀ (data : Nat → Nat) (p : Nat) (s : Device),
      (ReadMulti_loop (simulated d) d count data p s).2.regs = s.regs := by
  induction count with
  | zero => intro data p s; rfl
  | succ n ih =>
    intro data p s
    simp only [ReadMulti_loop]
    rw [ih, simulated_ReadByte_regs]

theorem simulated_ReadMulti_regs (d : Defs) (address reg count : Nat) (data : Nat → Nat)
    (s : Device) :
    (MPU9250_I2C_ReadMulti (simulated d) d address reg data count s).2.regs = s.regs := by
  unfold MPU9250_I2C_ReadMulti
  show ((simulated d).MasterSendStop _).regs = _
  have : ∀ t : Device, ((simulated d).MasterSendStop t).regs = t.regs := fun t => rfl
  rw [this, simulated_ReadMulti_loop_regs]
  cases hph : ((simulated d).MasterSendStart address d.I2C_MPU9250_Master_WRITE_XFER_MODE s).2.phase
    <;> simp_all [simulated]

theorem simulated_ReadAcc_regs (d : Defs) (s : Device) :
    (MPU9250_ReadAcc (simulated d) d s).2.regs = s.regs := by
  unfold MPU9250_ReadAcc
  exact simulated_ReadMulti_regs d _ _ _ _ s

theorem simulated_ReadGyro_regs (d : Defs) (s : Device) :
    (MPU9250_ReadGyro (simulated d) d s).2.regs = s.regs := by
  unfold MPU9250_ReadGyro
  exact simulated_ReadMulti_regs d _ _ _ _ s

theorem simulated_ReadSelfTestAcc_regs (d : Defs) (s : Device) :
    (MPU9250_ReadSelfTestAcc (simulated d) d s).2.regs = s.regs := by
  unfold MPU9250_ReadSelfTestAcc
  exact simulated_ReadMulti_regs d _ _ _ _ s

theorem simulated_ReadSelfTestGyro_regs (d : Defs) (s : Device) :
    (MPU9250_ReadSelfTestGyro (simulated d) d s).2.regs = s.regs := by
  unfold MPU9250_ReadSelfTestGyro
  exact simulated_ReadMulti_regs d _ _ _ _ s

theorem simulated_readings_regs (d : Defs) (n : Nat) :
    ∀ (Acc Gyro : List Int) (s : Device),
      (SelfTest_readings (simulated d) d n Acc Gyro s).2.regs = s.regs := by
  induction n with
  | zero => intro Acc Gyro s; rfl
  | succ k ih =>
    intro Acc Gyro s
    simp only [SelfTest_readings]
    rw [ih, simulated_ReadGyro_regs, simulated_ReadAcc_regs]

theorem simulated_SetAccFS_regs (d : Defs) (fs : Nat) (w : Driver Device) :
    (MPU9250_SetAccFS (simulated d) d fs w).bus.regs
      = Function.update w.bus.regs d.MPU9250_I2C_ADDRESS
          (Function.update (w.bus.regs d.MPU9250_I2C_ADDRESS) d.MPU9250_ACCEL_CONFIG_REG
            ((clear_bits
                (MPU9250_I2C_Read (simulated d) d d.MPU9250_I2C_ADDRESS
                  d.MPU9250_ACCEL_CONFIG_REG w.bus).1 MPU9250_ACC_FS_MASK
              ||| (fs <<< 3)) % 256)) := by
  unfold MPU9250_SetAccFS
  simp only [simulated_Write_regs, simulated_Read_regs]

theorem simulated_SetGyroFS_regs (d : Defs) (fs : Nat) (w : Driver Device) :
    (MPU9250_SetGyroFS (simulated d) d fs w).bus.regs
      = Function.update w.bus.regs d.MPU9250_I2C_ADDRESS
          (Function.update (w.bus.regs d.MPU9250_I2C_ADDRESS) d.MPU9250_GYRO_CONFIG_REG
            ((clear_bits
                (MPU9250_I2C_Read (simulated d) d d.MPU9250_I2C_ADDRESS
                  d.MPU9250_GYRO_CONFIG_REG w.bus).1 MPU9250_GYRO_FS_MASK
              ||| (fs <<< 3)) % 256)) := by
  unfold MPU9250_SetGyroFS
  simp only [simulated_Write_regs, simulated_Read_regs]

theorem ReadMulti_loop_frame {σ : Type} (m : Master σ) (d : Defs) (count : Nat) :
    ∀ (data : Nat → Nat) (p : Nat) (s : σ) (j : Nat), j < p ∨ p + count ≤ j →
      (ReadMulti_loop m d count data p s).1 j = data j := by
  induction count with
  | zero => intro data p s j _; rfl
  | succ n ih =>
    intro data p s j hj
    simp only [ReadMulti_loop]
    rw [ih _ _ _ j (by omega)]
    have : j ≠ p := by omega
    exact Function.update_noteq this _ _

theorem simulated_ReadMulti_loop_data (d : Defs) (count : Nat) :
    ∀ (data : Nat → Nat) (p : Nat) (s : Device), s.phase = Phase.reading →
      ∀ i, i < count →
        (ReadMulti_loop (simulated d) d count data p s).1 (p + i)
          = s.regs s.selected (s.pointer s.selected + i) := by
  induction count with
  | zero => intro data p s _ i hi; omega
  | succ n ih =>
    intro data p s hph i hi
    have hstep : ∀ a, (simulated d).MasterReadByte a s
        = (s.regs s.selected (s.pointer s.selected),
           { s with pointer :=
               Function.update s.pointer s.selected (s.pointer s.selected + 1) }) := by
      intro a
      simp [simulated, hph]
    simp only [ReadMulti_loop, hstep]
    cases i with
    | zero =>
      simp only [Nat.add_zero]
      rw [ReadMulti_loop_frame (simulated d) d n _ (p + 1) _ p (Or.inl (by omega))]
      simp
    | succ k =>
      have := ih (Function.update data p (s.regs s.selected (s.pointer s.selected))) (p + 1)
        { s with pointer :=
            Function.update s.pointer s.selected (s.pointer s.selected + 1) } hph k (by omega)
      rw [show p + (k + 1) = p + 1 + k by omega, this]
      simp only [Function.update_same]
      congr 1
      omega

theorem simulated_ReadMulti_data (d : Defs) (address reg count : Nat) (data : Nat → Nat)
    (s : Device)
    (hmode : d.I2C_MPU9250_Master_READ_XFER_MODE ≠ d.I2C_MPU9250_Master_WRITE_XFER_MODE)
    (i : Nat) (hi : i < count) :
    (MPU9250_I2C_ReadMulti (simulated d) d address reg data count s).1 i
      = s.regs address (reg + i) := by
  unfold MPU9250_I2C_ReadMulti
  have h := simulated_ReadMulti_loop_data d count data 0
    ((simulated d).MasterSendRestart address d.I2C_MPU9250_Master_READ_XFER_MODE
      ((simulated d).MasterWriteByte reg
        ((simulated d).MasterSendStart address d.I2C_MPU9250_Master_WRITE_XFER_MODE s).2))
    (by simp [simulated, hmode]) i hi
  simp only [Nat.zero_add] at h
  show (ReadMulti_loop _ _ _ _ _ _).1 i = _
  rw [h]
  simp [simulated]

/-! ## Values read from the simulated device -/

theorem simulated_ReadAcc_val (d : Defs) (s : Device)
    (hmode : d.I2C_MPU9250_Master_READ_XFER_MODE ≠ d.I2C_MPU9250_Master_WRITE_XFER_MODE) :
    (MPU9250_ReadAcc (simulated d) d s).1
      = [combine (fun i => s.regs d.MPU9250_I2C_ADDRESS (d.MPU9250_ACCEL_XOUT_H_REG + i)) 0 1,
         combine (fun i => s.regs d.MPU9250_I2C_ADDRESS (d.MPU9250_ACCEL_XOUT_H_REG + i)) 2 3,
         combine (fun i => s.regs d.MPU9250_I2C_ADDRESS (d.MPU9250_ACCEL_XOUT_H_REG + i)) 4 5] := by
  simp only [MPU9250_ReadAcc, combine,
    simulated_ReadMulti_data d _ _ 6 _ s hmode 0 (by decide),
    simulated_ReadMulti_data d _ _ 6 _ s hmode 1 (by decide),
    simulated_ReadMulti_data d _ _ 6 _ s hmode 2 (by decide),
    simulated_ReadMulti_data d _ _ 6 _ s hmode 3 (by decide),
    simulated_ReadMulti_data d _ _ 6 _ s hmode 4 (by decide),
    simulated_ReadMulti_data d _ _ 6 _ s hmode 5 (by decide)]

theorem simulated_ReadGyro_val (d : Defs) (s : Device)
    (hmode : d.I2C_MPU9250_Master_READ_XFER_MODE ≠ d.I2C_MPU9250_Master_WRITE_XFER_MODE) :
    (MPU9250_ReadGyro (simulated d) d s).1
      = [combine (fun i => s.regs d.MPU9250_I2C_ADDRESS (d.MPU9250_GYRO_XOUT_H_REG + i)) 0 1,
         combine (fun i => s.regs d.MPU9250_I2C_ADDRESS (d.MPU9250_GYRO_XOUT_H_REG + i)) 2 3,
         combine (fun i => s.regs d.MPU9250_I2C_ADDRESS (d.MPU9250_GYRO_XOUT_H_REG + i)) 4 5] := by
  simp only [MPU9250_ReadGyro, combine,
    simulated_ReadMulti_data d _ _ 6 _ s hmode 0 (by decide),
    simulated_ReadMulti_data d _ _ 6 _ s hmode 1 (by decide),
    simulated_ReadMulti_data d _ _ 6 _ s hmode 2 (by decide),
    simulated_ReadMulti_data d _ _ 6 _ s hmode 3 (by decide),
    simulated_ReadMulti_data d _ _ 6 _ s hmode 4 (by decide),
    simulated_ReadMulti_data d _ _ 6 _ s hmode 5 (by decide)]

theorem simulated_ReadSelfTestAcc_val (d : Defs) (s : Device)
    (hmode : d.I2C_MPU9250_Master_READ_XFER_MODE ≠ d.I2C_MPU9250_Master_WRITE_XFER_MODE) :
    (MPU9250_ReadSelfTestAcc (simulated d) d s).1
      = [combine (fun i => s.regs d.MPU9250_I2C_ADDRESS (d.MPU9250_SELF_TEST_X_ACCEL_REG + i)) 0 1,
         combine (fun i => s.regs d.MPU9250_I2C_ADDRESS (d.MPU9250_SELF_TEST_X_ACCEL_REG + i)) 1 3,
         combine (fun i => s.regs d.MPU9250_I2C_ADDRESS (d.MPU9250_SELF_TEST_X_ACCEL_REG + i)) 2 5] := by
  simp only [MPU9250_ReadSelfTestAcc, combine,
    simulated_ReadMulti_data d _ _ 6 _ s hmode 0 (by decide),
    simulated_ReadMulti_data d _ _ 6 _ s hmode 1 (by decide),
    simulated_ReadMulti_data d _ _ 6 _ s hmode 2 (by decide),
    simulated_ReadMulti_data d _ _ 6 _ s hmode 3 (by decide),
    simulated_ReadMulti_data d _ _ 6 _ s hmode 5 (by decide)]

theorem simulated_ReadSelfTestGyro_val (d : Defs) (s : Device)
    (hmode : d.I2C_MPU9250_Master_READ_XFER_MODE ≠ d.I2C_MPU9250_Master_WRITE_XFER_MODE) :
    (MPU9250_ReadSelfTestGyro (simulated d) d s).1
      = [combine (fun i => s.regs d.MPU9250_I2C_ADDRESS (d.MPU9250_SELF_TEST_X_GYRO_REG + i)) 0 1,
         combine (fun i => s.regs d.MPU9250_I2C_ADDRESS (d.MPU9250_SELF_TEST_X_GYRO_REG + i)) 1 3,
         combine (fun i => s.regs d.MPU9250_I2C_ADDRESS (d.MPU9250_SELF_TEST_X_GYRO_REG + i)) 2 5] := by
  simp only [MPU9250_ReadSelfTestGyro, combine,
    simulated_ReadMulti_data d _ _ 6 _ s hmode 0 (by decide),
    simulated_ReadMulti_data d _ _ 6 _ s hmode 1 (by decide),
    simulated_ReadMulti_data d _ _ 6 _ s hmode 2 (by decide),
    simulated_ReadMulti_data d _ _ 6 _ s hmode 3 (by decide),
    simulated_ReadMulti_data d _ _ 6 _ s hmode 5 (by decide)]

theorem simulated_readings_val (d : Defs)
    (hmode : d.I2C_MPU9250_Master_READ_XFER_MODE ≠ d.I2C_MPU9250_Master_WRITE_XFER_MODE)
    (n : Nat) :
    ∀ (Acc Gyro : List Int) (s : Device),
      (SelfTest_readings (simulated d) d n Acc Gyro s).1
        = ((fun X => SelfTest_accumulate X (MPU9250_ReadAcc (simulated d) d s).1)^[n] Acc,
           (fun X => SelfTest_accumulate X (MPU9250_ReadGyro (simulated d) d s).1)^[n] Gyro) := by
  induction n with
  | zero => intro Acc Gyro s; rfl
  | succ k ih =>
    intro Acc Gyro s
    simp only [SelfTest_readings, Function.iterate_succ, Function.comp]
    rw [ih]
    have h1 : (MPU9250_ReadAcc (simulated d) d
          (MPU9250_ReadGyro (simulated d) d (MPU9250_ReadAcc (simulated d) d s).2).2).1
        = (MPU9250_ReadAcc (simulated d) d s).1 := by
      rw [simulated_ReadAcc_val d _ hmode, simulated_ReadAcc_val d s hmode,
        simulated_ReadGyro_regs, simulated_ReadAcc_regs]
    have h2 : (MPU9250_ReadGyro (simulated d) d
          (MPU9250_ReadGyro (simulated d) d (MPU9250_ReadAcc (simulated d) d s).2).2).1
        = (MPU9250_ReadGyro (simulated d) d s).1 := by
      rw [simulated_ReadGyro_val d _ hmode, simulated_ReadGyro_val d s hmode,
        simulated_ReadGyro_regs, simulated_ReadAcc_regs]
    have h3 : (MPU9250_ReadGyro (simulated d) d (MPU9250_ReadAcc (simulated d) d s).2).1
        = (MPU9250_ReadGyro (simulated d) d s).1 := by
      rw [simulated_ReadGyro_val d _ hmode, simulated_ReadGyro_val d s hmode,
        simulated_ReadAcc_regs]
    rw [h1, h2, h3]

/-! ## Registers the self test leaves alone -/

theorem update2_other (R : Nat → Nat → Nat) (a0 r0 v a r : Nat) (h : r ≠ r0) :
    Function.update R a0 (Function.update (R a0) r0 v) a r = R a r := by
  by_cases ha : a = a0
  · subst ha
    simp [Function.update_noteq h]
  · simp [Function.update_noteq ha]

theorem simulated_SetAccFS_frame (d : Defs) (fs : Nat) (w : Driver Device) (a r : Nat)
    (h : r ≠ d.MPU9250_ACCEL_CONFIG_REG) :
    (MPU9250_SetAccFS (simulated d) d fs w).bus.regs a r = w.bus.regs a r := by
  rw [simulated_SetAccFS_regs, update2_other _ _ _ _ _ _ h]

theorem simulated_SetGyroFS_frame (d : Defs) (fs : Nat) (w : Driver Device) (a r : Nat)
    (h : r ≠ d.MPU9250_GYRO_CONFIG_REG) :
    (MPU9250_SetGyroFS (simulated d) d fs w).bus.regs a r = w.bus.regs a r := by
  rw [simulated_SetGyroFS_regs, update2_other _ _ _ _ _ _ h]

theorem simulated_configure_frame (d : Defs) (w : Driver Device) (a r : Nat)
    (hr : r ≠ d.MPU9250_ACCEL_CONFIG_REG ∧ r ≠ d.MPU9250_GYRO_CONFIG_REG
      ∧ r ≠ d.MPU9250_SMPLRT_DIV_REG ∧ r ≠ d.MPU9250_CONFIG_REG) :
    (SelfTest_configure (simulated d) d w).2.bus.regs a r = w.bus.regs a r := by
  obtain ⟨h1, h2, h3, h4⟩ := hr
  simp only [SelfTest_configure, MPU9250_SetSampleRateDivider, simulated_Write_regs,
    simulated_Read_regs, update2_other _ _ _ _ _ _ h1, update2_other _ _ _ _ _ _ h2,
    update2_other _ _ _ _ _ _ h3, update2_other _ _ _ _ _ _ h4,
    simulated_SetAccFS_frame _ _ _ _ _ h1, simulated_SetGyroFS_frame _ _ _ _ _ h2,
    MPU9250_GetAccFS, MPU9250_GetGyroFS]

theorem simulated_enable_frame (d : Defs) (s : Device) (a r : Nat)
    (hr : r ≠ d.MPU9250_ACCEL_CONFIG_REG ∧ r ≠ d.MPU9250_GYRO_CONFIG_REG) :
    (SelfTest_enable (simulated d) d s).regs a r = s.regs a r := by
  obtain ⟨h1, h2⟩ := hr
  simp only [SelfTest_enable, simulated_Write_regs, simulated_Read_regs,
    update2_other _ _ _ _ _ _ h1, update2_other _ _ _ _ _ _ h2]

theorem simulated_disable_frame (d : Defs) (s : Device) (a r : Nat)
    (hr : r ≠ d.MPU9250_ACCEL_CONFIG_REG ∧ r ≠ d.MPU9250_GYRO_CONFIG_REG) :
    (SelfTest_disable (simulated d) d s).regs a r = s.regs a r := by
  obtain ⟨h1, h2⟩ := hr
  simp only [SelfTest_disable, simulated_Write_regs, simulated_Read_regs,
    update2_other _ _ _ _ _ _ h1, update2_other _ _ _ _ _ _ h2]

/-! ## The self test on the simulated device -/

theorem simulated_ReadAcc_congr (d : Defs) (s s' : Device)
    (hmode : d.I2C_MPU9250_Master_READ_XFER_MODE ≠ d.I2C_MPU9250_Master_WRITE_XFER_MODE)
    (h : ∀ i, i < 6 → s'.regs d.MPU9250_I2C_ADDRESS (d.MPU9250_ACCEL_XOUT_H_REG + i)
        = s.regs d.MPU9250_I2C_ADDRESS (d.MPU9250_ACCEL_XOUT_H_REG + i)) :
    (MPU9250_ReadAcc (simulated d) d s').1 = (MPU9250_ReadAcc (simulated d) d s).1 := by
  rw [simulated_ReadAcc_val d s' hmode, simulated_ReadAcc_val d s hmode]
  simp only [combine, h 0 (by decide), h 1 (by decide), h 2 (by decide), h 3 (by decide),
    h 4 (by decide), h 5 (by decide)]

theorem simulated_ReadGyro_congr (d : Defs) (s s' : Device)
    (hmode : d.I2C_MPU9250_Master_READ_XFER_MODE ≠ d.I2C_MPU9250_Master_WRITE_XFER_MODE)
    (h : ∀ i, i < 6 → s'.regs d.MPU9250_I2C_ADDRESS (d.MPU9250_GYRO_XOUT_H_REG + i)
        = s.regs d.MPU9250_I2C_ADDRESS (d.MPU9250_GYRO_XOUT_H_REG + i)) :
    (MPU9250_ReadGyro (simulated d) d s').1 = (MPU9250_ReadGyro (simulated d) d s).1 := by
  rw [simulated_ReadGyro_val d s' hmode, simulated_ReadGyro_val d s hmode]
  simp only [combine, h 0 (by decide), h 1 (by decide), h 2 (by decide), h 3 (by decide),
    h 4 (by decide), h 5 (by decide)]

theorem simulated_ReadSelfTestAcc_congr (d : Defs) (s s' : Device)
    (hmode : d.I2C_MPU9250_Master_READ_XFER_MODE ≠ d.I2C_MPU9250_Master_WRITE_XFER_MODE)
    (h : ∀ i, i < 6 → s'.regs d.MPU9250_I2C_ADDRESS (d.MPU9250_SELF_TEST_X_ACCEL_REG + i)
        = s.regs d.MPU9250_I2C_ADDRESS (d.MPU9250_SELF_TEST_X_ACCEL_REG + i)) :
    (MPU9250_ReadSelfTestAcc (simulated d) d s').1
      = (MPU9250_ReadSelfTestAcc (simulated d) d s).1 := by
  rw [simulated_ReadSelfTestAcc_val d s' hmode, simulated_ReadSelfTestAcc_val d s hmode]
  simp only [combine, h 0 (by decide), h 1 (by decide), h 2 (by decide), h 3 (by decide),
    h 5 (by decide)]

theorem simulated_ReadSelfTestGyro_congr (d : Defs) (s s' : Device)
    (hmode : d.I2C_MPU9250_Master_READ_XFER_MODE ≠ d.I2C_MPU9250_Master_WRITE_XFER_MODE)
    (h : ∀ i, i < 6 → s'.regs d.MPU9250_I2C_ADDRESS (d.MPU9250_SELF_TEST_X_GYRO_REG + i)
        = s.regs d.MPU9250_I2C_ADDRESS (d.MPU9250_SELF_TEST_X_GYRO_REG + i)) :
    (MPU9250_ReadSelfTestGyro (simulated d) d s').1
      = (MPU9250_ReadSelfTestGyro (simulated d) d s).1 := by
  rw [simulated_ReadSelfTestGyro_val d s' hmode, simulated_ReadSelfTestGyro_val d s hmode]
  simp only [combine, h 0 (by decide), h 1 (by decide), h 2 (by decide), h 3 (by decide),
    h 5 (by decide)]

theorem simulated_SelfTest_frame (d : Defs) (w : Driver Device) (a r : Nat)
    (hr : d.notConfig r) :
    (MPU9250_SetGyroFS (simulated d) d (SelfTest_configure (simulated d) d w).1.2
      (MPU9250_SetAccFS (simulated d) d (SelfTest_configure (simulated d) d w).1.1
        { (SelfTest_configure (simulated d) d w).2 with
          bus := SelfTest_disable (simulated d) d
            (SelfTest_readings (simulated d) d 200 [0, 0, 0] [0, 0, 0]
              (SelfTest_enable (simulated d) d
                (SelfTest_readings (simulated d) d 200 [0, 0, 0] [0, 0, 0]
                  (SelfTest_configure (simulated d) d w).2.bus).2)).2 })).bus.regs a r
      = w.bus.regs a r := by
  have hr' := hr
  obtain ⟨h1, h2, h3, h4⟩ := hr
  rw [simulated_SetGyroFS_frame _ _ _ _ _ h2, simulated_SetAccFS_frame _ _ _ _ _ h1]
  simp only []
  rw [simulated_disable_frame _ _ _ _ ⟨h1, h2⟩, simulated_readings_regs,
    simulated_enable_frame _ _ _ _ ⟨h1, h2⟩, simulated_readings_regs,
    simulated_configure_frame _ _ _ _ hr']

theorem simulated_SelfTest_locals (d : Defs) (w : Driver Device)
    (hmode : d.I2C_MPU9250_Master_READ_XFER_MODE ≠ d.I2C_MPU9250_Master_WRITE_XFER_MODE)
    (hacc : ∀ i, i < 6 → d.notConfig (d.MPU9250_ACCEL_XOUT_H_REG + i))
    (hgyro : ∀ i, i < 6 → d.notConfig (d.MPU9250_GYRO_XOUT_H_REG + i))
    (hsta : ∀ i, i < 6 → d.notConfig (d.MPU9250_SELF_TEST_X_ACCEL_REG + i))
    (hstg : ∀ i, i < 6 → d.notConfig (d.MPU9250_SELF_TEST_X_GYRO_REG + i)) :
    (MPU9250_SelfTest (simulated d) d w).1.Acc
        = SelfTest_average
            ((fun X => SelfTest_accumulate X (MPU9250_ReadAcc (simulated d) d w.bus).1)^[200]
              [0, 0, 0])
    ∧ (MPU9250_SelfTest (simulated d) d w).1.Gyro
        = SelfTest_average
            ((fun X => SelfTest_accumulate X (MPU9250_ReadGyro (simulated d) d w.bus).1)^[200]
              [0, 0, 0])
    ∧ (MPU9250_SelfTest (simulated d) d w).1.ST_Acc
        = SelfTest_average
            ((fun X => SelfTest_accumulate X (MPU9250_ReadAcc (simulated d) d w.bus).1)^[200]
              [0, 0, 0])
    ∧ (MPU9250_SelfTest (simulated d) d w).1.ST_Gyro
        = SelfTest_average
            ((fun X => SelfTest_accumulate X (MPU9250_ReadGyro (simulated d) d w.bus).1)^[200]
              [0, 0, 0])
    ∧ (MPU9250_SelfTest (simulated d) d w).1.ST_AccStored
        = (MPU9250_ReadSelfTestAcc (simulated d) d w.bus).1
    ∧ (MPU9250_SelfTest (simulated d) d w).1.ST_GyroStored
        = (MPU9250_ReadSelfTestGyro (simulated d) d w.bus).1 := by
  have e1 : ∀ r, d.notConfig r →
      (SelfTest_configure (simulated d) d w).2.bus.regs d.MPU9250_I2C_ADDRESS r
        = w.bus.regs d.MPU9250_I2C_ADDRESS r := fun r hr =>
    simulated_configure_frame d w _ r hr
  have e2 : ∀ r, d.notConfig r →
      (SelfTest_enable (simulated d) d
          (SelfTest_readings (simulated d) d 200 [0, 0, 0] [0, 0, 0]
            (SelfTest_configure (simulated d) d w).2.bus).2).regs d.MPU9250_I2C_ADDRESS r
        = w.bus.regs d.MPU9250_I2C_ADDRESS r := by
    intro r hr
    rw [simulated_enable_frame _ _ _ _ ⟨hr.1, hr.2.1⟩, simulated_readings_regs, e1 r hr]
  refine ⟨?_, ?_, ?_, ?_, ?_, ?_⟩
  · simp only [MPU9250_SelfTest, simulated_readings_val d hmode]
    rw [simulated_ReadAcc_congr d w.bus _ hmode (fun i hi => e1 _ (hacc i hi))]
  · simp only [MPU9250_SelfTest, simulated_readings_val d hmode]
    rw [simulated_ReadGyro_congr d w.bus _ hmode (fun i hi => e1 _ (hgyro i hi))]
  · simp only [MPU9250_SelfTest, simulated_readings_val d hmode]
    rw [simulated_ReadAcc_congr d w.bus _ hmode (fun i hi => e2 _ (hacc i hi))]
  · simp only [MPU9250_SelfTest, simulated_readings_val d hmode]
    rw [simulated_ReadGyro_congr d w.bus _ hmode (fun i hi => e2 _ (hgyro i hi))]
  · simp only [MPU9250_SelfTest]
    exact simulated_ReadSelfTestAcc_congr d w.bus _ hmode
      (fun i hi => simulated_SelfTest_frame d w _ _ (hsta i hi))
  · simp only [MPU9250_SelfTest]
    apply simulated_ReadSelfTestGyro_congr d w.bus _ hmode
    intro i hi
    rw [simulated_ReadSelfTestAcc_regs]
    exact simulated_SelfTest_frame d w _ _ (hstg i hi)

/-! ## The self test: accumulation and deviation -/

theorem resting_ReadAcc :
    (MPU9250_ReadAcc (simulated datasheetDefs) datasheetDefs restingDriver.bus).1
      = [0, 0, 16384] := by
  rw [simulated_ReadAcc_val _ _ (by decide)]
  decide

theorem resting_ReadGyro :
    (MPU9250_ReadGyro (simulated datasheetDefs) datasheetDefs restingDriver.bus).1
      = [0, 0, 0] := by
  rw [simulated_ReadGyro_val _ _ (by decide)]
  decide

theorem resting_ReadSelfTestAcc :
    (MPU9250_ReadSelfTestAcc (simulated datasheetDefs) datasheetDefs restingDriver.bus).1
      = [257, 256, 256] := by
  rw [simulated_ReadSelfTestAcc_val _ _ (by decide)]
  decide

theorem resting_ReadSelfTestGyro :
    (MPU9250_ReadSelfTestGyro (simulated datasheetDefs) datasheetDefs restingDriver.bus).1
      = [0, 0, 0] := by
  rw [simulated_ReadSelfTestGyro_val _ _ (by decide)]
  decide

theorem int16_t_of_int_add (x a : Int) :
    int16_t_of_int (int16_t_of_int x + a) = int16_t_of_int (x + a) := by
  unfold int16_t_of_int
  split_ifs <;> omega

theorem accumulate_iterate (a b c : Int) (n : Nat) :
    ∀ x y z : Int,
      (fun X => SelfTest_accumulate X [a, b, c])^[n]
          [int16_t_of_int x, int16_t_of_int y, int16_t_of_int z]
        = [int16_t_of_int (x + n * a), int16_t_of_int (y + n * b),
           int16_t_of_int (z + n * c)] := by
  induction n with
  | zero => intro x y z; simp
  | succ k ih =>
    intro x y z
    rw [Function.iterate_succ, Function.comp]
    have h : SelfTest_accumulate [int16_t_of_int x, int16_t_of_int y, int16_t_of_int z] [a, b, c]
        = [int16_t_of_int (x + a), int16_t_of_int (y + b), int16_t_of_int (z + c)] := by
      simp [SelfTest_accumulate, int16_t_of_int_add]
    rw [h, ih]
    push_cast
    congr 2 <;> ring_nf

theorem accumulate_200 (a b c : Int) :
    (fun X => SelfTest_accumulate X [a, b, c])^[200] [0, 0, 0]
      = [int16_t_of_int (200 * a), int16_t_of_int (200 * b), int16_t_of_int (200 * c)] := by
  have h := accumulate_iterate a b c 200 0 0 0
  have h0 : int16_t_of_int 0 = 0 := by decide
  rw [h0] at h
  simp only [zero_add, Nat.cast_ofNat] at h
  exact h

theorem deviation_fold (r0 r1 r2 r3 r4 r5 a0 a1 a2 g0 g1 g2 : Int) (f0 f1 f2 f3 f4 f5 : ℚ) :
    List.foldl (SelfTest_deviation_step [r0, r1, r2, r3, r4, r5] [a0, a1, a2] [g0, g1, g2]
        [f0, f1, f2, f3, f4, f5]) (List.replicate 6 none) [0, 1, 2]
      = [some (100 * ((r0 - a0 : Int) : ℚ) / f0 - 100),
         some (100 * ((r1 - a1 : Int) : ℚ) / f1 - 100),
         some (100 * ((r2 - a2 : Int) : ℚ) / f2 - 100), none, none, none] := by
  simp [SelfTest_deviation_step]

theorem SelfTest_deviation_unfold {σ : Type} (m : Master σ) (d : Defs) (w : Driver σ) :
    (MPU9250_SelfTest m d w).1.deviation
      = List.foldl (SelfTest_deviation_step (MPU9250_SelfTest m d w).1.ST_Response
         (MPU9250_SelfTest m d w).1.Acc (MPU9250_SelfTest m d w).1.Gyro
         (MPU9250_SelfTest m d w).1.Factory_Trim) (List.replicate 6 none) [0, 1, 2] := rfl

theorem SelfTest_Acc_shape {σ : Type} (m : Master σ) (d : Defs) (w : Driver σ) :
    ∃ a0 a1 a2, (MPU9250_SelfTest m d w).1.Acc = [a0, a1, a2] := ⟨_, _, _, rfl⟩

theorem SelfTest_Gyro_shape {σ : Type} (m : Master σ) (d : Defs) (w : Driver σ) :
    ∃ a0 a1 a2, (MPU9250_SelfTest m d w).1.Gyro = [a0, a1, a2] := ⟨_, _, _, rfl⟩

theorem SelfTest_ST_Response_shape {σ : Type} (m : Master σ) (d : Defs) (w : Driver σ) :
    ∃ a0 a1 a2 a3 a4 a5, (MPU9250_SelfTest m d w).1.ST_Response = [a0, a1, a2, a3, a4, a5] :=
  ⟨_, _, _, _, _, _, rfl⟩

theorem SelfTest_Factory_Trim_shape {σ : Type} (m : Master σ) (d : Defs) (w : Driver σ) :
    ∃ a0 a1 a2 a3 a4 a5, (MPU9250_SelfTest m d w).1.Factory_Trim = [a0, a1, a2, a3, a4, a5] :=
  ⟨_, _, _, _, _, _, rfl⟩

theorem SelfTest_deviation_shape {σ : Type} (m : Master σ) (d : Defs) (w : Driver σ) :
    (MPU9250_SelfTest m d w).1.deviation
      = [some (100 * ((((MPU9250_SelfTest m d w).1.ST_Response.getD 0 0
                - (MPU9250_SelfTest m d w).1.Acc.getD 0 0 : Int)) : ℚ)
              / (MPU9250_SelfTest m d w).1.Factory_Trim.getD 0 0 - 100),
         some (100 * ((((MPU9250_SelfTest m d w).1.ST_Response.getD 1 0
                - (MPU9250_SelfTest m d w).1.Acc.getD 1 0 : Int)) : ℚ)
              / (MPU9250_SelfTest m d w).1.Factory_Trim.getD 1 0 - 100),
         some (100 * ((((MPU9250_SelfTest m d w).1.ST_Response.getD 2 0
                - (MPU9250_SelfTest m d w).1.Acc.getD 2 0 : Int)) : ℚ)
              / (MPU9250_SelfTest m d w).1.Factory_Trim.getD 2 0 - 100),
         none, none, none] := by
  rw [SelfTest_deviation_unfold]
  obtain ⟨a0, a1, a2, ha⟩ := SelfTest_Acc_shape m d w
  obtain ⟨g0, g1, g2, hg⟩ := SelfTest_Gyro_shape m d w
  obtain ⟨r0, r1, r2, r3, r4, r5, hr⟩ := SelfTest_ST_Response_shape m d w
  obtain ⟨f0, f1, f2, f3, f4, f5, hf⟩ := SelfTest_Factory_Trim_shape m d w
  rw [ha, hg, hr, hf, deviation_fold]
  simp only [List.getD_cons_zero, List.getD_cons_succ]

/-! ## The self test on a device at rest -/

theorem SelfTest_ST_Response_unfold {σ : Type} (m : Master σ) (d : Defs) (w : Driver σ) :
    (MPU9250_SelfTest m d w).1.ST_Response
      = [int16_t_of_int ((MPU9250_SelfTest m d w).1.ST_Acc.getD 0 0
            - (MPU9250_SelfTest m d w).1.Acc.getD 0 0),
         int16_t_of_int ((MPU9250_SelfTest m d w).1.ST_Acc.getD 1 0
            - (MPU9250_SelfTest m d w).1.Acc.getD 1 0),
         int16_t_of_int ((MPU9250_SelfTest m d w).1.ST_Acc.getD 2 0
            - (MPU9250_SelfTest m d w).1.Acc.getD 2 0),
         int16_t_of_int ((MPU9250_SelfTest m d w).1.ST_Gyro.getD 0 0
            - (MPU9250_SelfTest m d w).1.Gyro.getD 0 0),
         int16_t_of_int ((MPU9250_SelfTest m d w).1.ST_Gyro.getD 1 0
            - (MPU9250_SelfTest m d w).1.Gyro.getD 1 0),
         int16_t_of_int ((MPU9250_SelfTest m d w).1.ST_Gyro.getD 2 0
            - (MPU9250_SelfTest m d w).1.Gyro.getD 2 0)] := rfl

theorem SelfTest_Factory_Trim_unfold {σ : Type} (m : Master σ) (d : Defs) (w : Driver σ) :
    (MPU9250_SelfTest m d w).1.Factory_Trim
      = [SelfTest_trim d ((MPU9250_SelfTest m d w).1.ST_AccStored.getD 0 0),
         SelfTest_trim d ((MPU9250_SelfTest m d w).1.ST_AccStored.getD 1 0),
         SelfTest_trim d ((MPU9250_SelfTest m d w).1.ST_AccStored.getD 2 0),
         SelfTest_trim d ((MPU9250_SelfTest m d w).1.ST_GyroStored.getD 0 0),
         SelfTest_trim d ((MPU9250_SelfTest m d w).1.ST_GyroStored.getD 1 0),
         SelfTest_trim d ((MPU9250_SelfTest m d w).1.ST_GyroStored.getD 2 0)] := rfl

theorem resting_locals :
    (MPU9250_SelfTest (simulated datasheetDefs) datasheetDefs restingDriver).1.Acc = [0, 0, 0]
    ∧ (MPU9250_SelfTest (simulated datasheetDefs) datasheetDefs restingDriver).1.Gyro = [0, 0, 0]
    ∧ (MPU9250_SelfTest (simulated datasheetDefs) datasheetDefs restingDriver).1.ST_Acc
        = [0, 0, 0]
    ∧ (MPU9250_SelfTest (simulated datasheetDefs) datasheetDefs restingDriver).1.ST_Gyro
        = [0, 0, 0]
    ∧ (MPU9250_SelfTest (simulated datasheetDefs) datasheetDefs restingDriver).1.ST_AccStored
        = [257, 256, 256]
    ∧ (MPU9250_SelfTest (simulated datasheetDefs) datasheetDefs restingDriver).1.ST_GyroStored
        = [0, 0, 0] := by
  obtain ⟨h1, h2, h3, h4, h5, h6⟩ := simulated_SelfTest_locals datasheetDefs restingDriver
    (by decide) (by decide) (by decide) (by decide) (by decide)
  rw [h1, h2, h3, h4, h5, h6, resting_ReadAcc, resting_ReadGyro, resting_ReadSelfTestAcc,
    resting_ReadSelfTestGyro, accumulate_200, accumulate_200]
  decide

theorem resting_deviation :
    (MPU9250_SelfTest (simulated datasheetDefs) datasheetDefs restingDriver).1.deviation
      = [some (-100), some (-100), some (-100), none, none, none] := by
  obtain ⟨h1, h2, h3, h4, h5, h6⟩ := resting_locals
  rw [SelfTest_deviation_shape, SelfTest_ST_Response_unfold, h1, h2, h3, h4]
  have h0 : int16_t_of_int 0 = 0 := by decide
  simp [h0]

theorem resting_trim :
    (MPU9250_SelfTest (simulated datasheetDefs) datasheetDefs restingDriver).1.Factory_Trim
      = [2620 * (101 / 100 : ℚ) ^ (256 : Int), 2620 * (101 / 100 : ℚ) ^ (255 : Int),
         2620 * (101 / 100 : ℚ) ^ (255 : Int), 2620 * (101 / 100 : ℚ) ^ (-1 : Int),
         2620 * (101 / 100 : ℚ) ^ (-1 : Int), 2620 * (101 / 100 : ℚ) ^ (-1 : Int)] := by
  obtain ⟨h1, h2, h3, h4, h5, h6⟩ := resting_locals
  rw [SelfTest_Factory_Trim_unfold, h5, h6]
  have e : ∀ x : Int, SelfTest_trim datasheetDefs x = 2620 * (101 / 100 : ℚ) ^ (x - 1) := by
    intro x
    unfold SelfTest_trim
    congr 1
  simp only [List.getD_cons_zero, List.getD_cons_succ, e]
  rfl

theorem trim_ne : (2620 : ℚ) * (101 / 100 : ℚ) ^ (256 : Int) ≠ 2620 * (101 / 100 : ℚ) ^ ((1 : Int) - 1) := by
  have h : (1 : ℚ) < (101 / 100 : ℚ) ^ (256 : ℕ) := one_lt_pow₀ (by norm_num) (by norm_num)
  have h2 : (101 / 100 : ℚ) ^ (256 : Int) = (101 / 100 : ℚ) ^ (256 : ℕ) := by
    exact_mod_cast zpow_natCast (101 / 100 : ℚ) 256
  rw [h2]
  simp only [sub_self, zpow_zero, mul_one]
  intro hc
  linarith

/-! ## Lemmas on one pass of the deviation loop -/

theorem deviation_step_gyro_entry (ST_Response Acc Gyro : List Int) (Factory_Trim : List ℚ)
    (x0 x1 x2 x3 x4 x5 : Option ℚ) (i : Fin 3) :
    (SelfTest_deviation_step ST_Response Acc Gyro Factory_Trim
        [x0, x1, x2, x3, x4, x5] i.val)[i.val + 3]?
      = some ((ST_Response[i.val]?).bind fun r =>
          (Gyro[i.val + 3]?).bind fun g =>
            (Factory_Trim[i.val]?).bind fun f =>
              some (100 * ((r - g : Int) : ℚ) / f - 100)) := by
  fin_cases i <;> simp [SelfTest_deviation_step, List.getElem?_set]

/-! ## Lemmas on the range field -/

theorem and_byte (x m : Nat) (hm : m < 256) : x &&& m = (x % 256) &&& m := by
  have h1 : m = 0xFF &&& m := by
    have := Nat.and_pow_two_sub_one_eq_mod m 8
    simp only [Nat.reducePow, Nat.add_one_sub_one] at this
    rw [Nat.land_comm, this, Nat.mod_eq_of_lt hm]
  have h2 : x &&& 0xFF = x % 256 := by
    have := Nat.and_pow_two_sub_one_eq_mod x 8
    simpa using this
  calc x &&& m = x &&& (0xFF &&& m) := by rw [← h1]
    _ = (x &&& 0xFF) &&& m := by rw [Nat.land_assoc]
    _ = (x % 256) &&& m := by rw [h2]

set_option maxRecDepth 100000 in
theorem range_field_bytes :
    ∀ y, y < 256 → ∀ c, c < 256 →
      ((((y &&& (0xFF ^^^ 0x18)) ||| (((c &&& 0x18) >>> 3) <<< 3)) % 256) &&& 0x18)
        = c &&& 0x18 := by
  decide!

theorem range_field_restored (x a : Nat) :
    (((clear_bits x 0x18 ||| (((a &&& 0x18) >>> 3) <<< 3)) % 256) &&& 0x18) = a &&& 0x18 := by
  unfold clear_bits
  have hx : x &&& (0xFF ^^^ 0x18) = (x % 256) &&& (0xFF ^^^ 0x18) :=
    and_byte x _ (by decide)
  have ha : a &&& 0x18 = (a % 256) &&& 0x18 := and_byte a _ (by decide)
  rw [hx, ha]
  exact range_field_bytes (x % 256) (Nat.mod_lt _ (by decide)) (a % 256)
    (Nat.mod_lt _ (by decide))

/-! ## Lemmas on the read without register address -/

theorem ReadMultiNoRegister_loop_recorder (d : Defs) (status byte : Nat → Nat) (count : Nat) :
    ∀ (data : Nat → Nat) (s : Bus),
      (ReadMultiNoRegister_loop (recorder status byte) d (count + 1) data s).2.log
          = s.log ++ (List.replicate count (Op.ReadByte d.I2C_MPU9250_Master_ACK_DATA)
              ++ [Op.ReadByte d.I2C_MPU9250_Master_NAK_DATA])
      ∧ (ReadMultiNoRegister_loop (recorder status byte) d (count + 1) data s).1 0
          = byte (s.reads + count)
      ∧ (∀ j, (ReadMultiNoRegister_loop (recorder status byte) d (count + 1) data s).1 (j + 1)
          = data (j + 1)) := by
  induction count with
  | zero =>
    intro data s
    refine ⟨?_, ?_, ?_⟩
    · simp [ReadMultiNoRegister_loop, recorder]
    · simp [ReadMultiNoRegister_loop, recorder]
    · intro j
      simp [ReadMultiNoRegister_loop, recorder]
  | succ n ih =>
    intro data s
    have step : ReadMultiNoRegister_loop (recorder status byte) d (n + 1 + 1) data s
        = ReadMultiNoRegister_loop (recorder status byte) d (n + 1)
            (Function.update data 0 (byte s.reads))
            { s with log := s.log ++ [Op.ReadByte d.I2C_MPU9250_Master_ACK_DATA],
                     reads := s.reads + 1 } := by
      simp [ReadMultiNoRegister_loop, recorder]
    rw [step]
    obtain ⟨h1, h2, h3⟩ := ih (Function.update data 0 (byte s.reads))
      { s with log := s.log ++ [Op.ReadByte d.I2C_MPU9250_Master_ACK_DATA],
               reads := s.reads + 1 }
    refine ⟨?_, ?_, ?_⟩
    · rw [h1]; simp [List.replicate_succ]
    · rw [h2]
      congr 1
      simp only
      omega
    · intro j
      rw [h3 j]
      simp

/-! ## Lemmas on the rate registers after the self test -/

theorem update2_same (R : Nat → Nat → Nat) (a r v : Nat) :
    Function.update R a (Function.update (R a) r v) a r = v := by
  simp

theorem simulated_configure_smplrt (d : Defs) (w : Driver Device)
    (hSA : d.MPU9250_SMPLRT_DIV_REG ≠ d.MPU9250_ACCEL_CONFIG_REG)
    (hSG : d.MPU9250_SMPLRT_DIV_REG ≠ d.MPU9250_GYRO_CONFIG_REG)
    (hSC : d.MPU9250_SMPLRT_DIV_REG ≠ d.MPU9250_CONFIG_REG) :
    (SelfTest_configure (simulated d) d w).2.bus.regs d.MPU9250_I2C_ADDRESS
      d.MPU9250_SMPLRT_DIV_REG = 0 := by
  simp only [SelfTest_configure, MPU9250_SetSampleRateDivider, simulated_Write_regs,
    simulated_Read_regs, update2_other _ _ _ _ _ _ hSA, update2_other _ _ _ _ _ _ hSG,
    update2_other _ _ _ _ _ _ hSC, update2_same]

theorem simulated_configure_config (d : Defs) (w : Driver Device)
    (hCA : d.MPU9250_CONFIG_REG ≠ d.MPU9250_ACCEL_CONFIG_REG)
    (hCG : d.MPU9250_CONFIG_REG ≠ d.MPU9250_GYRO_CONFIG_REG) :
    (SelfTest_configure (simulated d) d w).2.bus.regs d.MPU9250_I2C_ADDRESS
      d.MPU9250_CONFIG_REG = 0x02 := by
  simp only [SelfTest_configure, MPU9250_SetSampleRateDivider, simulated_Write_regs,
    simulated_Read_regs, update2_other _ _ _ _ _ _ hCA, update2_other _ _ _ _ _ _ hCG,
    update2_same]

theorem simulated_SelfTest_after_configure (d : Defs) (w : Driver Device) (a r : Nat)
    (hA : r ≠ d.MPU9250_ACCEL_CONFIG_REG) (hG : r ≠ d.MPU9250_GYRO_CONFIG_REG) :
    (MPU9250_SelfTest (simulated d) d w).2.bus.regs a r
      = (SelfTest_configure (simulated d) d w).2.bus.regs a r := by
  have hfinal : (MPU9250_SelfTest (simulated d) d w).2.bus.regs
      = (MPU9250_SetGyroFS (simulated d) d (SelfTest_configure (simulated d) d w).1.2
          (MPU9250_SetAccFS (simulated d) d (SelfTest_configure (simulated d) d w).1.1
            { (SelfTest_configure (simulated d) d w).2 with
              bus := SelfTest_disable (simulated d) d
                (SelfTest_readings (simulated d) d 200 [0, 0, 0] [0, 0, 0]
                  (SelfTest_enable (simulated d) d
                    (SelfTest_readings (simulated d) d 200 [0, 0, 0] [0, 0, 0]
                      (SelfTest_configure (simulated d) d w).2.bus).2)).2 })).bus.regs := by
    simp only [MPU9250_SelfTest, simulated_ReadSelfTestGyro_regs,
      simulated_ReadSelfTestAcc_regs]
  rw [hfinal, simulated_SetGyroFS_frame _ _ _ _ _ hG, simulated_SetAccFS_frame _ _ _ _ _ hA]
  simp only []
  rw [simulated_disable_frame _ _ _ _ ⟨hA, hG⟩, simulated_readings_regs,
    simulated_enable_frame _ _ _ _ ⟨hA, hG⟩, simulated_readings_regs]

/-! ## Bus transaction layer: operation sequences -/

/-- C1: for every device address, register and count >= 1, the burst read
issues SendStart(address, write), WriteByte(register), SendRestart(address,
read), count - 1 ReadByte(ACK), one ReadByte(NAK) and SendStop, in that order
and nothing else; among these there is exactly one restart and no stop before
the last operation; and the i-th byte the master yields during the call is
stored at data[i] for every i < count. -/
theorem ReadMulti_issues_burst_sequence (d : Defs) (status byte : Nat → Nat)
    (address reg count : Nat) (data : Nat → Nat) (s : Bus) (hcount : 1 ≤ count) :
    (MPU9250_I2C_ReadMulti (recorder status byte) d address reg data count s).2.log
        = s.log ++ ([Op.SendStart address d.I2C_MPU9250_Master_WRITE_XFER_MODE,
                     Op.WriteByte reg,
                     Op.SendRestart address d.I2C_MPU9250_Master_READ_XFER_MODE]
            ++ List.replicate (count - 1) (Op.ReadByte d.I2C_MPU9250_Master_ACK_DATA)
            ++ [Op.ReadByte d.I2C_MPU9250_Master_NAK_DATA, Op.SendStop])
    ∧ List.countP Op.isRestart
        (List.drop s.log.length
          (MPU9250_I2C_ReadMulti (recorder status byte) d address reg data count s).2.log) = 1
    ∧ Op.SendStop ∉ List.dropLast
        (List.drop s.log.length
          (MPU9250_I2C_ReadMulti (recorder status byte) d address reg data count s).2.log)
    ∧ ∀ i, i < count →
        (MPU9250_I2C_ReadMulti (recorder status byte) d address reg data count s).1 i
          = byte (s.reads + i) := by
  obtain ⟨n, rfl⟩ : ∃ n, count = n + 1 := ⟨count - 1, by omega⟩
  have hlog : (MPU9250_I2C_ReadMulti (recorder status byte) d address reg data (n + 1) s).2.log
        = s.log ++ ([Op.SendStart address d.I2C_MPU9250_Master_WRITE_XFER_MODE,
                     Op.WriteByte reg,
                     Op.SendRestart address d.I2C_MPU9250_Master_READ_XFER_MODE]
            ++ List.replicate n (Op.ReadByte d.I2C_MPU9250_Master_ACK_DATA)
            ++ [Op.ReadByte d.I2C_MPU9250_Master_NAK_DATA, Op.SendStop]) := by
    have h := (ReadMulti_loop_recorder d status byte n data 0
      ((recorder status byte).MasterSendRestart address d.I2C_MPU9250_Master_READ_XFER_MODE
        ((recorder status byte).MasterWriteByte reg
          ((recorder status byte).MasterSendStart address
            d.I2C_MPU9250_Master_WRITE_XFER_MODE s).2))).1
    show ((recorder status byte).MasterSendStop _).log = _
    show _ ++ [Op.SendStop] = _
    rw [h]
    simp [recorder]
  refine ⟨by simpa using hlog, ?_, ?_, ?_⟩
  · rw [hlog, List.drop_left]
    simp [List.countP_append, List.countP_cons, Op.isRestart, List.countP_replicate]
  · rw [hlog, List.drop_left]
    have : ([Op.SendStart address d.I2C_MPU9250_Master_WRITE_XFER_MODE,
                     Op.WriteByte reg,
                     Op.SendRestart address d.I2C_MPU9250_Master_READ_XFER_MODE]
            ++ List.replicate n (Op.ReadByte d.I2C_MPU9250_Master_ACK_DATA)
            ++ [Op.ReadByte d.I2C_MPU9250_Master_NAK_DATA, Op.SendStop])
        = ([Op.SendStart address d.I2C_MPU9250_Master_WRITE_XFER_MODE,
                     Op.WriteByte reg,
                     Op.SendRestart address d.I2C_MPU9250_Master_READ_XFER_MODE]
            ++ List.replicate n (Op.ReadByte d.I2C_MPU9250_Master_ACK_DATA)
            ++ [Op.ReadByte d.I2C_MPU9250_Master_NAK_DATA]) ++ [Op.SendStop] := by simp
    rw [this, List.dropLast_concat]
    simp
  · intro i hi
    exact ReadMulti_recorder_data d status byte address reg n data s i hi

/-- C1, at a concrete input: a burst of three bytes from register 0x3B. -/
theorem ReadMulti_issues_burst_sequence_witness :
    1 ≤ 3 ∧
    (MPU9250_I2C_ReadMulti (recorder (fun _ => 0) (fun k => 10 + k)) datasheetDefs
        0x68 0x3B (fun _ => 0) 3 ⟨[], 0, 0⟩).2.log
      = [Op.SendStart 0x68 0, Op.WriteByte 0x3B, Op.SendRestart 0x68 1,
         Op.ReadByte 1, Op.ReadByte 1, Op.ReadByte 0, Op.SendStop] :=
  ⟨by decide,
   by simpa [datasheetDefs] using
     (ReadMulti_issues_burst_sequence datasheetDefs (fun _ => 0) (fun k => 10 + k)
        0x68 0x3B 3 (fun _ => 0) ⟨[], 0, 0⟩ (by decide)).1⟩

/-- C3: for every address and register the single byte read issues
SendStart(address, write), WriteByte(register), SendStop, SendStart(address,
read), ReadByte(NAK), SendStop, in that order and nothing else, and returns the
byte the master's ReadByte yields; neither depends on the statuses the two
SendStart calls return. -/
theorem Read_issues_sequence_and_returns_byte (d : Defs) (status byte : Nat → Nat)
    (address reg : Nat) (s : Bus) :
    (MPU9250_I2C_Read (recorder status byte) d address reg s).2.log
        = s.log ++ [Op.SendStart address d.I2C_MPU9250_Master_WRITE_XFER_MODE,
                    Op.WriteByte reg,
                    Op.SendStop,
                    Op.SendStart address d.I2C_MPU9250_Master_READ_XFER_MODE,
                    Op.ReadByte d.I2C_MPU9250_Master_NAK_DATA,
                    Op.SendStop]
    ∧ (MPU9250_I2C_Read (recorder status byte) d address reg s).1 = byte s.reads
    ∧ ∀ status2 : Nat → Nat,
        (MPU9250_I2C_Read (recorder status2 byte) d address reg s)
          = (MPU9250_I2C_Read (recorder status byte) d address reg s) := by
  refine ⟨?_, ?_, ?_⟩
  · simp [MPU9250_I2C_Read, recorder]
  · simp [MPU9250_I2C_Read, recorder]
  · intro status2
    simp [MPU9250_I2C_Read, recorder]

/-- C2: against the simulated device, for every address, register and byte
v, a single byte write of v to the register followed by a single byte read of
the same register returns exactly v (the write and read transfer modes being
two different codes). -/
theorem Write_then_Read_returns_written (d : Defs) (address reg v : Nat) (s : Device)
    (hmode : d.I2C_MPU9250_Master_READ_XFER_MODE ≠ d.I2C_MPU9250_Master_WRITE_XFER_MODE) :
    (MPU9250_I2C_Read (simulated d) d address reg
      (MPU9250_I2C_Write (simulated d) d address reg v s)).1 = v := by
  simp [MPU9250_I2C_Read, MPU9250_I2C_Write, simulated, hmode]

/-- C2, at a concrete input: 0x5A written to register 0x1C of device 0x68. -/
theorem Write_then_Read_returns_written_witness :
    (MPU9250_I2C_Read (simulated datasheetDefs) datasheetDefs 0x68 0x1C
      (MPU9250_I2C_Write (simulated datasheetDefs) datasheetDefs 0x68 0x1C 0x5A
        ⟨fun _ _ => 0, fun _ => 0, 0, Phase.idle⟩)).1 = 0x5A :=
  Write_then_Read_returns_written datasheetDefs 0x68 0x1C 0x5A
    ⟨fun _ _ => 0, fun _ => 0, 0, Phase.idle⟩ (by decide)

/-! ## Presence check and sample assembly -/

/-- C9: for every master, the presence check returns 0 whenever the probe
SendStart returns a non-zero status or the byte read from the identity
register differs from the identity constant, and returns non-zero exactly when
the probe status is 0 and the identity byte equals the constant. -/
theorem IsConnected_iff_probe_and_identity {σ : Type} (m : Master σ) (d : Defs) (s : σ) :
    ((m.MasterSendStart d.MPU9250_I2C_ADDRESS 0 s).1 ≠ 0
        ∨ (MPU9250_I2C_Read m d d.MPU9250_I2C_ADDRESS d.MPU9250_WHO_AM_I_REG
            (m.MasterSendStop (m.MasterSendStart d.MPU9250_I2C_ADDRESS 0 s).2)).1
          ≠ d.MPU9250_WHO_AM_I
      → (MPU9250_IsConnected m d s).1 = 0)
    ∧ ((MPU9250_IsConnected m d s).1 ≠ 0
        ↔ (m.MasterSendStart d.MPU9250_I2C_ADDRESS 0 s).1 = 0
          ∧ (MPU9250_I2C_Read m d d.MPU9250_I2C_ADDRESS d.MPU9250_WHO_AM_I_REG
              (m.MasterSendStop (m.MasterSendStart d.MPU9250_I2C_ADDRESS 0 s).2)).1
            = d.MPU9250_WHO_AM_I) := by
  unfold MPU9250_IsConnected
  by_cases hst : (m.MasterSendStart d.MPU9250_I2C_ADDRESS 0 s).1 = 0
  · by_cases hid : (MPU9250_I2C_Read m d d.MPU9250_I2C_ADDRESS d.MPU9250_WHO_AM_I_REG
        (m.MasterSendStop (m.MasterSendStart d.MPU9250_I2C_ADDRESS 0 s).2)).1
        = d.MPU9250_WHO_AM_I
    · simp [hst, hid]
    · simp [hst, hid]
  · have hpos : (m.MasterSendStart d.MPU9250_I2C_ADDRESS 0 s).1 > 0 := Nat.pos_of_ne_zero hst
    simp [hst, hpos]

/-- C4: for every burst of six bytes [h0,l0,h1,l1,h2,l2] the master yields,
MPU9250_ReadAcc and MPU9250_ReadGyro store for each axis k the value
256*h_k + l_k when that is below 32768 and 256*h_k + l_k - 65536 otherwise. -/
theorem ReadAcc_ReadGyro_combine_bytes (d : Defs) (status byte : Nat → Nat) (s : Bus)
    (hbyte : ∀ i, i < 6 → byte (s.reads + i) < 256) :
    (MPU9250_ReadAcc (recorder status byte) d s).1
        = List.map (fun k =>
            if 256 * (byte (s.reads + 2 * k) : Int) + (byte (s.reads + (2 * k + 1)) : Int) < 32768
            then 256 * (byte (s.reads + 2 * k) : Int) + (byte (s.reads + (2 * k + 1)) : Int)
            else 256 * (byte (s.reads + 2 * k) : Int) + (byte (s.reads + (2 * k + 1)) : Int)
                  - 65536) [0, 1, 2]
    ∧ (MPU9250_ReadGyro (recorder status byte) d s).1
        = List.map (fun k =>
            if 256 * (byte (s.reads + 2 * k) : Int) + (byte (s.reads + (2 * k + 1)) : Int) < 32768
            then 256 * (byte (s.reads + 2 * k) : Int) + (byte (s.reads + (2 * k + 1)) : Int)
            else 256 * (byte (s.reads + 2 * k) : Int) + (byte (s.reads + (2 * k + 1)) : Int)
                  - 65536) [0, 1, 2] := by
  have key : ∀ reg i, i < 6 →
      (MPU9250_I2C_ReadMulti (recorder status byte) d d.MPU9250_I2C_ADDRESS reg
        (fun _ => 0) 6 s).1 i = byte (s.reads + i) := fun reg i hi =>
    ReadMulti_recorder_data d status byte d.MPU9250_I2C_ADDRESS reg 5 (fun _ => 0) s i hi
  constructor
  · unfold MPU9250_ReadAcc
    simp only [List.map]
    rw [combine_eq _ 0 1 (by rw [key _ 0 (by decide)]; exact hbyte 0 (by decide))
          (by rw [key _ 1 (by decide)]; exact hbyte 1 (by decide)),
        combine_eq _ 2 3 (by rw [key _ 2 (by decide)]; exact hbyte 2 (by decide))
          (by rw [key _ 3 (by decide)]; exact hbyte 3 (by decide)),
        combine_eq _ 4 5 (by rw [key _ 4 (by decide)]; exact hbyte 4 (by decide))
          (by rw [key _ 5 (by decide)]; exact hbyte 5 (by decide))]
    simp only [key _ 0 (by decide), key _ 1 (by decide), key _ 2 (by decide),
      key _ 3 (by decide), key _ 4 (by decide), key _ 5 (by decide)]
  · unfold MPU9250_ReadGyro
    simp only [List.map]
    rw [combine_eq _ 0 1 (by rw [key _ 0 (by decide)]; exact hbyte 0 (by decide))
          (by rw [key _ 1 (by decide)]; exact hbyte 1 (by decide)),
        combine_eq _ 2 3 (by rw [key _ 2 (by decide)]; exact hbyte 2 (by decide))
          (by rw [key _ 3 (by decide)]; exact hbyte 3 (by decide)),
        combine_eq _ 4 5 (by rw [key _ 4 (by decide)]; exact hbyte 4 (by decide))
          (by rw [key _ 5 (by decide)]; exact hbyte 5 (by decide))]
    simp only [key _ 0 (by decide), key _ 1 (by decide), key _ 2 (by decide),
      key _ 3 (by decide), key _ 4 (by decide), key _ 5 (by decide)]

/-- C4, at a concrete input: the burst [0x7F,0xFF, 0x80,0x00, 0x00,0x01] gives
32767, -32768 and 1. -/
theorem ReadAcc_ReadGyro_combine_bytes_witness :
    (MPU9250_ReadAcc (recorder (fun _ => 0)
        (fun k => [0x7F, 0xFF, 0x80, 0x00, 0x00, 0x01].getD k 0)) datasheetDefs ⟨[], 0, 0⟩).1
      = [32767, -32768, 1]
    ∧ (MPU9250_ReadGyro (recorder (fun _ => 0)
        (fun k => [0x7F, 0xFF, 0x80, 0x00, 0x00, 0x01].getD k 0)) datasheetDefs ⟨[], 0, 0⟩).1
      = [32767, -32768, 1] := by
  have h := ReadAcc_ReadGyro_combine_bytes datasheetDefs (fun _ => 0)
    (fun k => [0x7F, 0xFF, 0x80, 0x00, 0x00, 0x01].getD k 0) ⟨[], 0, 0⟩ (by decide)
  simpa using h

/-! ## Self test: configuration registers -/

/-- C8: against the simulated register file, for every initial content of
the accelerometer and gyroscope configuration registers, after
MPU9250_SelfTest bits [4:3] of the accelerometer configuration register and
of the gyroscope configuration register are what they were before the call
(the read and write transfer modes being two different codes). -/
theorem SelfTest_restores_full_scale_ranges (d : Defs) (w : Driver Device)
    (hmode : d.I2C_MPU9250_Master_READ_XFER_MODE ≠ d.I2C_MPU9250_Master_WRITE_XFER_MODE) :
    ((MPU9250_SelfTest (simulated d) d w).2.bus.regs d.MPU9250_I2C_ADDRESS
        d.MPU9250_ACCEL_CONFIG_REG) &&& 0x18
      = (w.bus.regs d.MPU9250_I2C_ADDRESS d.MPU9250_ACCEL_CONFIG_REG) &&& 0x18
    ∧ ((MPU9250_SelfTest (simulated d) d w).2.bus.regs d.MPU9250_I2C_ADDRESS
        d.MPU9250_GYRO_CONFIG_REG) &&& 0x18
      = (w.bus.regs d.MPU9250_I2C_ADDRESS d.MPU9250_GYRO_CONFIG_REG) &&& 0x18 := by
  have hold : (SelfTest_configure (simulated d) d w).1
      = ((w.bus.regs d.MPU9250_I2C_ADDRESS d.MPU9250_ACCEL_CONFIG_REG &&& 0x18) >>> 3,
         (w.bus.regs d.MPU9250_I2C_ADDRESS d.MPU9250_GYRO_CONFIG_REG &&& 0x18) >>> 3) := by
    simp only [SelfTest_configure, MPU9250_GetAccFS, MPU9250_GetGyroFS,
      simulated_Read_val d _ _ _ hmode, simulated_Read_regs, MPU9250_ACC_FS_MASK,
      MPU9250_GYRO_FS_MASK]
  have hfinal : (MPU9250_SelfTest (simulated d) d w).2.bus.regs
      = (MPU9250_SetGyroFS (simulated d) d (SelfTest_configure (simulated d) d w).1.2
          (MPU9250_SetAccFS (simulated d) d (SelfTest_configure (simulated d) d w).1.1
            { (SelfTest_configure (simulated d) d w).2 with
              bus := SelfTest_disable (simulated d) d
                (SelfTest_readings (simulated d) d 200 [0, 0, 0] [0, 0, 0]
                  (SelfTest_enable (simulated d) d
                    (SelfTest_readings (simulated d) d 200 [0, 0, 0] [0, 0, 0]
                      (SelfTest_configure (simulated d) d w).2.bus).2)).2 })).bus.regs := by
    simp only [MPU9250_SelfTest, simulated_ReadSelfTestGyro_regs,
      simulated_ReadSelfTestAcc_regs]
  rw [hfinal, simulated_SetGyroFS_regs, simulated_SetAccFS_regs, hold]
  simp only [simulated_Read_val d _ _ _ hmode, simulated_SetAccFS_regs, hold,
    MPU9250_ACC_FS_MASK, MPU9250_GYRO_FS_MASK, Function.update_same]
  by_cases hreg : d.MPU9250_ACCEL_CONFIG_REG = d.MPU9250_GYRO_CONFIG_REG
  · rw [hreg]
    simp only [Function.update_same]
    exact ⟨range_field_restored _ _, range_field_restored _ _⟩
  · have hreg2 : d.MPU9250_GYRO_CONFIG_REG ≠ d.MPU9250_ACCEL_CONFIG_REG := fun h => hreg h.symm
    simp only [Function.update_same, Function.update_noteq hreg, Function.update_noteq hreg2]
    exact ⟨range_field_restored _ _, range_field_restored _ _⟩

/-- C8, at a concrete input: the datasheet register map, accelerometer
configuration 0x55 (range code 2) and gyroscope configuration 0x18 (range
code 3). -/
theorem SelfTest_restores_full_scale_ranges_witness :
    datasheetDefs.I2C_MPU9250_Master_READ_XFER_MODE
        ≠ datasheetDefs.I2C_MPU9250_Master_WRITE_XFER_MODE
    ∧ ((MPU9250_SelfTest (simulated datasheetDefs) datasheetDefs exampleDriver).2.bus.regs
          datasheetDefs.MPU9250_I2C_ADDRESS datasheetDefs.MPU9250_ACCEL_CONFIG_REG) &&& 0x18
        = (exampleDriver.bus.regs datasheetDefs.MPU9250_I2C_ADDRESS
            datasheetDefs.MPU9250_ACCEL_CONFIG_REG) &&& 0x18
    ∧ ((MPU9250_SelfTest (simulated datasheetDefs) datasheetDefs exampleDriver).2.bus.regs
          datasheetDefs.MPU9250_I2C_ADDRESS datasheetDefs.MPU9250_GYRO_CONFIG_REG) &&& 0x18
        = (exampleDriver.bus.regs datasheetDefs.MPU9250_I2C_ADDRESS
            datasheetDefs.MPU9250_GYRO_CONFIG_REG) &&& 0x18 :=
  ⟨by decide, SelfTest_restores_full_scale_ranges datasheetDefs exampleDriver (by decide)⟩

/-! ## Self test: averages, factory trim and deviation on a device at rest -/

/-- C5, evaluated on a device at rest: every accelerometer sample read is
(0, 0, 16384), the exact sum of 200 such Z samples divided by 200 is 16384,
and the baseline and self-test averages `Acc` and `ST_Acc` the code ends with
are (0, 0, 0): the `int16_t` accumulator wraps. -/
theorem SelfTest_average_wraps_at_rest :
    (∀ s : Device,
        (∀ i, i < 6 → s.regs 0x68 (0x3B + i) = restingDriver.bus.regs 0x68 (0x3B + i)) →
        (MPU9250_ReadAcc (simulated datasheetDefs) datasheetDefs s).1 = [0, 0, 16384])
    ∧ Int.tdiv (List.replicate 200 (16384 : Int)).sum 200 = 16384
    ∧ (MPU9250_SelfTest (simulated datasheetDefs) datasheetDefs restingDriver).1.Acc
        = [0, 0, 0]
    ∧ (MPU9250_SelfTest (simulated datasheetDefs) datasheetDefs restingDriver).1.ST_Acc
        = [0, 0, 0] := by
  refine ⟨?_, ?_, resting_locals.1, resting_locals.2.2.1⟩
  · intro s hs
    rw [simulated_ReadAcc_congr datasheetDefs restingDriver.bus s (by decide) hs]
    exact resting_ReadAcc
  · rw [List.sum_replicate]
    decide

/-- C6, evaluated on a device at rest: the three accelerometer deviations are
-100, and the three gyroscope deviations have no value, because the line that
computes `deviation[i+3]` reads `Gyro[i+3]`; whenever that read does have a
value, the line combines it with `ST_Response[i]` and `Factory_Trim[i]`, the
accelerometer's response and trim. -/
theorem SelfTest_gyro_deviation_at_rest :
    (MPU9250_SelfTest (simulated datasheetDefs) datasheetDefs restingDriver).1.deviation
        = [some (-100), some (-100), some (-100), none, none, none]
    ∧ ∀ (ST_Response Acc Gyro : List Int) (Factory_Trim : List ℚ)
        (deviation : List (Option ℚ)) (i : Nat) (r g : Int) (f : ℚ),
        ST_Response[i]? = some r → Gyro[i + 3]? = some g → Factory_Trim[i]? = some f →
        i + 3 < deviation.length →
        (SelfTest_deviation_step ST_Response Acc Gyro Factory_Trim deviation i)[i + 3]?
          = some (some (100 * ((r - g : Int) : ℚ) / f - 100)) := by
  refine ⟨resting_deviation, ?_⟩
  intro R Acc Gyro FT dev i r g f hr hg hf hlen
  simp [SelfTest_deviation_step, hr, hg, hf, hlen, List.getElem?_set]

/-- C7, evaluated on a device at rest whose three accelerometer self-test
registers hold the byte 1: the code's stored codes are 257, 256, 256 (two
bytes combined) and the X trim is 2620 * 1.01^256, not 2620 * 1.01^(1 - 1). -/
theorem SelfTest_factory_trim_at_rest :
    restingDriver.bus.regs 0x68 0x0D = 1
    ∧ (MPU9250_SelfTest (simulated datasheetDefs) datasheetDefs restingDriver).1.ST_AccStored
        = [257, 256, 256]
    ∧ (MPU9250_SelfTest (simulated datasheetDefs) datasheetDefs restingDriver).1.Factory_Trim
        = [2620 * (101 / 100 : ℚ) ^ (256 : Int), 2620 * (101 / 100 : ℚ) ^ (255 : Int),
           2620 * (101 / 100 : ℚ) ^ (255 : Int), 2620 * (101 / 100 : ℚ) ^ (-1 : Int),
           2620 * (101 / 100 : ℚ) ^ (-1 : Int), 2620 * (101 / 100 : ℚ) ^ (-1 : Int)]
    ∧ (MPU9250_SelfTest (simulated datasheetDefs) datasheetDefs
          restingDriver).1.Factory_Trim.getD 0 0
        ≠ 2620 * (101 / 100 : ℚ) ^ ((1 : Int) - 1) := by
  refine ⟨by decide, resting_locals.2.2.2.2.1, resting_trim, ?_⟩
  rw [resting_trim]
  exact trim_ne

/-! ## Accelerometer scale factor -/

/-- The value the `switch` of MPU9250_SetAccFS stores in acc_scale for each of
the four range codes, for every register map in which the four codes are
different. -/
theorem SetAccFS_scale {σ : Type} (m : Master σ) (d : Defs) (w : Driver σ)
    (h42 : d.MPU9250_Acc_FS_4g ≠ d.MPU9250_Acc_FS_2g)
    (h82 : d.MPU9250_Acc_FS_8g ≠ d.MPU9250_Acc_FS_2g)
    (h84 : d.MPU9250_Acc_FS_8g ≠ d.MPU9250_Acc_FS_4g)
    (h162 : d.MPU9250_Acc_FS_16g ≠ d.MPU9250_Acc_FS_2g)
    (h164 : d.MPU9250_Acc_FS_16g ≠ d.MPU9250_Acc_FS_4g)
    (h168 : d.MPU9250_Acc_FS_16g ≠ d.MPU9250_Acc_FS_8g) :
    (MPU9250_SetAccFS m d d.MPU9250_Acc_FS_2g w).acc_scale = 9807 / 1000 * 2 / 65536 / 2
    ∧ (MPU9250_SetAccFS m d d.MPU9250_Acc_FS_4g w).acc_scale = 9807 / 1000 * 4 / 65536 / 2
    ∧ (MPU9250_SetAccFS m d d.MPU9250_Acc_FS_8g w).acc_scale = 9807 / 1000 * 8 / 65536 / 2
    ∧ (MPU9250_SetAccFS m d d.MPU9250_Acc_FS_16g w).acc_scale = 9807 / 1000 * 16 / 65536 / 2
    ∧ (149 : ℚ) / 1000000 < (MPU9250_SetAccFS m d d.MPU9250_Acc_FS_2g w).acc_scale
    ∧ (MPU9250_SetAccFS m d d.MPU9250_Acc_FS_2g w).acc_scale < (150 : ℚ) / 1000000 := by
  have e2 : (MPU9250_SetAccFS m d d.MPU9250_Acc_FS_2g w).acc_scale
      = 9807 / 1000 * 2 / 65536 / 2 := by
    simp only [MPU9250_SetAccFS, MPU9250_G, if_true]
    norm_num
  refine ⟨e2, ?_, ?_, ?_, ?_, ?_⟩
  · simp only [MPU9250_SetAccFS, MPU9250_G, if_neg h42, if_true]
    norm_num
  · simp only [MPU9250_SetAccFS, MPU9250_G, if_neg h82, if_neg h84, if_true]
    norm_num
  · simp only [MPU9250_SetAccFS, MPU9250_G, if_neg h162, if_neg h164, if_neg h168, if_true]
    norm_num
  · rw [e2]; norm_num
  · rw [e2]; norm_num

/-- C10, evaluated with the datasheet range codes, for every master and
prior state: after MPU9250_SetAccFS the stored acc_scale is 9.807 * range_g /
65536 / 2, which is a quarter of 9.807 * range_g * 2 / 65536 for each of the
four ranges; for 2 g it differs from 9.807 * 2 * 2 / 65536, lies below
1.50e-4, and turns 16384 counts (one g at the 2 g range) into 9.807 / 4. -/
theorem SetAccFS_scale_quarter_of_claimed {σ : Type} (m : Master σ) (w : Driver σ) :
    (MPU9250_SetAccFS m datasheetDefs datasheetDefs.MPU9250_Acc_FS_2g w).acc_scale
        = 9807 / 1000 * 2 / 65536 / 2
    ∧ (MPU9250_SetAccFS m datasheetDefs datasheetDefs.MPU9250_Acc_FS_2g w).acc_scale
        = (9807 / 1000 * 2 * 2 / 65536) / 4
    ∧ (MPU9250_SetAccFS m datasheetDefs datasheetDefs.MPU9250_Acc_FS_4g w).acc_scale
        = (9807 / 1000 * 4 * 2 / 65536) / 4
    ∧ (MPU9250_SetAccFS m datasheetDefs datasheetDefs.MPU9250_Acc_FS_8g w).acc_scale
        = (9807 / 1000 * 8 * 2 / 65536) / 4
    ∧ (MPU9250_SetAccFS m datasheetDefs datasheetDefs.MPU9250_Acc_FS_16g w).acc_scale
        = (9807 / 1000 * 16 * 2 / 65536) / 4
    ∧ (MPU9250_SetAccFS m datasheetDefs datasheetDefs.MPU9250_Acc_FS_2g w).acc_scale
        ≠ 9807 / 1000 * 2 * 2 / 65536
    ∧ (MPU9250_SetAccFS m datasheetDefs datasheetDefs.MPU9250_Acc_FS_2g w).acc_scale
        < (150 : ℚ) / 1000000
    ∧ 16384 * (MPU9250_SetAccFS m datasheetDefs datasheetDefs.MPU9250_Acc_FS_2g w).acc_scale
        = 9807 / 1000 / 4 := by
  obtain ⟨h2, h4, h8, h16, _, _⟩ := SetAccFS_scale m datasheetDefs w
    (by decide) (by decide) (by decide) (by decide) (by decide) (by decide)
  rw [h2, h4, h8, h16]
  norm_num

/-! ## Scale factors, empty burst, rate registers, read without register,
deviation indices and interrupt polarity -/

/-- C14, evaluated for every count of at least 2 (count = n + 2): the read
without register address issues SendStart(address, read), count - 1
ReadByte(ACK), one ReadByte(NAK) and SendStop, as claimed, but it stores every
byte at data[0]: at the end data[0] holds the last byte read and data[1],
data[2], ... are what they were before the call, whereas MPU9250_I2C_ReadMulti
on the same stream stores the first byte at data[0] and the second at
data[1]. -/
theorem ReadMultiNoRegister_stores_at_offset_zero (d : Defs) (status byte : Nat → Nat)
    (address reg n : Nat) (data : Nat → Nat) (s : Bus) :
    (MPU9250_I2C_ReadMultiNoRegister (recorder status byte) d address data (n + 2) s).2.log
        = s.log ++ ([Op.SendStart address d.I2C_MPU9250_Master_READ_XFER_MODE]
            ++ List.replicate (n + 1) (Op.ReadByte d.I2C_MPU9250_Master_ACK_DATA)
            ++ [Op.ReadByte d.I2C_MPU9250_Master_NAK_DATA, Op.SendStop])
    ∧ (MPU9250_I2C_ReadMultiNoRegister (recorder status byte) d address data (n + 2) s).1 0
        = byte (s.reads + (n + 1))
    ∧ (∀ j, (MPU9250_I2C_ReadMultiNoRegister (recorder status byte) d address data
          (n + 2) s).1 (j + 1) = data (j + 1))
    ∧ (MPU9250_I2C_ReadMulti (recorder status byte) d address reg data (n + 2) s).1 0
        = byte (s.reads + 0)
    ∧ (MPU9250_I2C_ReadMulti (recorder status byte) d address reg data (n + 2) s).1 1
        = byte (s.reads + 1) := by
  obtain ⟨h1, h2, h3⟩ := ReadMultiNoRegister_loop_recorder d status byte (n + 1) data
    ((recorder status byte).MasterSendStart address d.I2C_MPU9250_Master_READ_XFER_MODE s).2
  refine ⟨?_, ?_, ?_, ?_, ?_⟩
  · show ((recorder status byte).MasterSendStop _).log = _
    show _ ++ [Op.SendStop] = _
    rw [h1]
    simp [recorder]
  · show (ReadMultiNoRegister_loop _ _ _ _ _).1 0 = _
    rw [h2]
    simp [recorder]
  · intro j
    show (ReadMultiNoRegister_loop _ _ _ _ _).1 (j + 1) = _
    exact h3 j
  · exact ReadMulti_recorder_data d status byte address reg (n + 1) data s 0 (by omega)
  · exact ReadMulti_recorder_data d status byte address reg (n + 1) data s 1 (by omega)

/-- C12: for every address and register, the burst read with count = 0 issues
exactly SendStart(address, write), WriteByte(register), SendRestart(address,
read), SendStop; no ReadByte call is made (the number of bytes read from the
master is unchanged) and the data buffer is left as it was. -/
theorem ReadMulti_count_zero (d : Defs) (status byte : Nat → Nat)
    (address reg : Nat) (data : Nat → Nat) (s : Bus) :
    (MPU9250_I2C_ReadMulti (recorder status byte) d address reg data 0 s).2.log
        = s.log ++ [Op.SendStart address d.I2C_MPU9250_Master_WRITE_XFER_MODE,
                    Op.WriteByte reg,
                    Op.SendRestart address d.I2C_MPU9250_Master_READ_XFER_MODE,
                    Op.SendStop]
    ∧ (MPU9250_I2C_ReadMulti (recorder status byte) d address reg data 0 s).2.reads = s.reads
    ∧ (MPU9250_I2C_ReadMulti (recorder status byte) d address reg data 0 s).1 = data := by
  refine ⟨?_, ?_, ?_⟩
  · simp [MPU9250_I2C_ReadMulti, ReadMulti_loop, recorder]
  · simp [MPU9250_I2C_ReadMulti, ReadMulti_loop, recorder]
  · simp [MPU9250_I2C_ReadMulti, ReadMulti_loop]

/-- C11, evaluated: MPU9250_SetGyroFS leaves gyro_scale as it was, for every
master, range code and prior state, so any two range codes leave the same
gyro_scale; on the simulated device, after setting 250 dps and then range
code 3 from the initial value 0, gyro_scale is still 0. -/
theorem SetGyroFS_leaves_gyro_scale {σ : Type} (m : Master σ) (d : Defs) (fs fs2 : Nat)
    (w : Driver σ) :
    (MPU9250_SetGyroFS m d fs w).gyro_scale = w.gyro_scale
    ∧ (MPU9250_SetGyroFS m d fs w).gyro_scale = (MPU9250_SetGyroFS m d fs2 w).gyro_scale
    ∧ (MPU9250_SetGyroFS (simulated datasheetDefs) datasheetDefs 3
        (MPU9250_SetGyroFS (simulated datasheetDefs) datasheetDefs
          datasheetDefs.MPU9250_Gyro_FS_250 exampleDriver)).gyro_scale = 0 := by
  refine ⟨rfl, rfl, rfl⟩

/-- C15: in MPU9250_SelfTest the array Gyro has 3 elements and the output
array is filled by the deviation loop run for i = 0, 1, 2 with that Gyro; for
every i in {0, 1, 2}, the pass for i stores in deviation[i+3], whatever was
there before, a value computed from the checked read Gyro[i+3] (with a
6-element array it is 100 * (ST_Response[i] - Gyro[i+3]) / Factory_Trim[i] -
100); with the 3-element Gyro of the function that read is outside the array
and gives none, so the pass leaves deviation[i+3] without a value, and so does
the function. -/
theorem SelfTest_reads_Gyro_out_of_bounds {σ : Type} (m : Master σ) (d : Defs)
    (w : Driver σ) :
    (MPU9250_SelfTest m d w).1.Gyro.length = 3
    ∧ (MPU9250_SelfTest m d w).1.deviation
        = List.foldl
            (SelfTest_deviation_step (MPU9250_SelfTest m d w).1.ST_Response
              (MPU9250_SelfTest m d w).1.Acc (MPU9250_SelfTest m d w).1.Gyro
              (MPU9250_SelfTest m d w).1.Factory_Trim)
            (List.replicate 6 none) [0, 1, 2]
    ∧ ∀ i : Fin 3,
        (MPU9250_SelfTest m d w).1.Gyro[i.val + 3]? = none
        ∧ (MPU9250_SelfTest m d w).1.deviation[i.val + 3]? = some none
        ∧ (∀ (ST_Response Acc Gyro : List Int) (Factory_Trim : List ℚ)
            (x0 x1 x2 x3 x4 x5 : Option ℚ),
            (SelfTest_deviation_step ST_Response Acc Gyro Factory_Trim
                [x0, x1, x2, x3, x4, x5] i.val)[i.val + 3]?
              = some ((ST_Response[i.val]?).bind fun r =>
                  (Gyro[i.val + 3]?).bind fun g =>
                    (Factory_Trim[i.val]?).bind fun f =>
                      some (100 * ((r - g : Int) : ℚ) / f - 100)))
        ∧ (∀ (x0 x1 x2 x3 x4 x5 : Option ℚ),
            (SelfTest_deviation_step (MPU9250_SelfTest m d w).1.ST_Response
                (MPU9250_SelfTest m d w).1.Acc (MPU9250_SelfTest m d w).1.Gyro
                (MPU9250_SelfTest m d w).1.Factory_Trim
                [x0, x1, x2, x3, x4, x5] i.val)[i.val + 3]? = some none)
        ∧ (∀ (r0 r1 r2 r3 r4 r5 g0 g1 g2 g3 g4 g5 : Int) (f0 f1 f2 f3 f4 f5 : ℚ)
            (Acc : List Int) (x0 x1 x2 x3 x4 x5 : Option ℚ),
            (SelfTest_deviation_step [r0, r1, r2, r3, r4, r5] Acc [g0, g1, g2, g3, g4, g5]
                [f0, f1, f2, f3, f4, f5] [x0, x1, x2, x3, x4, x5] i.val)[i.val + 3]?
              = some (some (100 * (([r0, r1, r2, r3, r4, r5].getD i.val 0
                    - [g0, g1, g2, g3, g4, g5].getD (i.val + 3) 0 : Int) : ℚ)
                  / [f0, f1, f2, f3, f4, f5].getD i.val 0 - 100))) := by
  obtain ⟨g0, g1, g2, hg⟩ := SelfTest_Gyro_shape m d w
  have hnone : ∀ i : Fin 3, (MPU9250_SelfTest m d w).1.Gyro[i.val + 3]? = none := by
    intro i
    rw [hg]
    fin_cases i <;> rfl
  refine ⟨by rw [hg]; rfl, SelfTest_deviation_unfold m d w, ?_⟩
  intro i
  refine ⟨hnone i, ?_, ?_, ?_, ?_⟩
  · rw [SelfTest_deviation_shape]
    fin_cases i <;> rfl
  · intro R Acc Gyro FT x0 x1 x2 x3 x4 x5
    exact deviation_step_gyro_entry R Acc Gyro FT x0 x1 x2 x3 x4 x5 i
  · intro x0 x1 x2 x3 x4 x5
    rw [deviation_step_gyro_entry, hnone i]
    cases (MPU9250_SelfTest m d w).1.ST_Response[i.val]? <;> rfl
  · intro r0 r1 r2 r3 r4 r5 g0 g1 g2 g3 g4 g5 f0 f1 f2 f3 f4 f5 Acc x0 x1 x2 x3 x4 x5
    rw [deviation_step_gyro_entry]
    fin_cases i <;> rfl

/-- C13: against the simulated register file, for every prior content of
the sample rate divider and CONFIG registers, after MPU9250_SelfTest the
sample rate divider register holds 0 and the CONFIG register holds 0x02 (the
two registers being different from each other and from the accelerometer and
gyroscope configuration registers). -/
theorem SelfTest_leaves_rate_registers_rewritten (d : Defs) (w : Driver Device)
    (hSA : d.MPU9250_SMPLRT_DIV_REG ≠ d.MPU9250_ACCEL_CONFIG_REG)
    (hSG : d.MPU9250_SMPLRT_DIV_REG ≠ d.MPU9250_GYRO_CONFIG_REG)
    (hSC : d.MPU9250_SMPLRT_DIV_REG ≠ d.MPU9250_CONFIG_REG)
    (hCA : d.MPU9250_CONFIG_REG ≠ d.MPU9250_ACCEL_CONFIG_REG)
    (hCG : d.MPU9250_CONFIG_REG ≠ d.MPU9250_GYRO_CONFIG_REG) :
    (MPU9250_SelfTest (simulated d) d w).2.bus.regs d.MPU9250_I2C_ADDRESS
        d.MPU9250_SMPLRT_DIV_REG = 0
    ∧ (MPU9250_SelfTest (simulated d) d w).2.bus.regs d.MPU9250_I2C_ADDRESS
        d.MPU9250_CONFIG_REG = 0x02 := by
  rw [simulated_SelfTest_after_configure d w _ _ hSA hSG,
    simulated_SelfTest_after_configure d w _ _ hCA hCG]
  exact ⟨simulated_configure_smplrt d w hSA hSG hSC, simulated_configure_config d w hCA hCG⟩

/-- C13, at a concrete input: the datasheet register map, sample rate divider
4 and CONFIG 0x03 before the call. -/
theorem SelfTest_leaves_rate_registers_rewritten_witness :
    startedDriver.bus.regs datasheetDefs.MPU9250_I2C_ADDRESS
        datasheetDefs.MPU9250_SMPLRT_DIV_REG = 0x04
    ∧ startedDriver.bus.regs datasheetDefs.MPU9250_I2C_ADDRESS
        datasheetDefs.MPU9250_CONFIG_REG = 0x03
    ∧ (MPU9250_SelfTest (simulated datasheetDefs) datasheetDefs startedDriver).2.bus.regs
        datasheetDefs.MPU9250_I2C_ADDRESS datasheetDefs.MPU9250_SMPLRT_DIV_REG = 0
    ∧ (MPU9250_SelfTest (simulated datasheetDefs) datasheetDefs startedDriver).2.bus.regs
        datasheetDefs.MPU9250_I2C_ADDRESS datasheetDefs.MPU9250_CONFIG_REG = 0x02 :=
  ⟨by decide, by decide,
   SelfTest_leaves_rate_registers_rewritten datasheetDefs startedDriver
     (by decide) (by decide) (by decide) (by decide) (by decide)⟩

/-! ## Interrupt polarity -/

/-- C16, evaluated on the simulated device: MPU9250_SetInterruptActiveLow on
INT_PIN_CFG = 0x00 leaves INT_PIN_CFG = 0x40 (bit 6 set, bit 7 clear), and
MPU9250_SetInterruptActiveHigh on INT_PIN_CFG = 0x80, INT_ENABLE = 0xC1 leaves
INT_PIN_CFG = 0x80 (bit 7 still set) and INT_ENABLE = 0x41 (changed). -/
theorem SetInterruptActive_at_examples :
    ((MPU9250_SetInterruptActiveLow (simulated datasheetDefs) datasheetDefs
        (interruptDevice 0x00 0x01)).regs 0x68 0x37 = 0x40)
    ∧ ((MPU9250_SetInterruptActiveHigh (simulated datasheetDefs) datasheetDefs
        (interruptDevice 0x80 0xC1)).regs 0x68 0x37 = 0x80)
    ∧ ((MPU9250_SetInterruptActiveHigh (simulated datasheetDefs) datasheetDefs
        (interruptDevice 0x80 0xC1)).regs 0x68 0x38 = 0x41) := by
  refine ⟨?_, ?_, ?_⟩
  · simp only [MPU9250_SetInterruptActiveLow, simulated_Write_regs, simulated_Read_regs,
      simulated_Read_val datasheetDefs _ _ _ (by decide)]
    decide
  · simp only [MPU9250_SetInterruptActiveHigh, simulated_Write_regs, simulated_Read_regs,
      simulated_Read_val datasheetDefs _ _ _ (by decide)]
    decide
  · simp only [MPU9250_SetInterruptActiveHigh, simulated_Write_regs, simulated_Read_regs,
      simulated_Read_val datasheetDefs _ _ _ (by decide)]
    decide

end MPU9250
